import Mathlib

/-!
Verification of the IOXIO Tags core pipeline (src/api/app/tag.py).

Modelling conventions:
* A Python `str` is represented by the list of its UTF-8 bytes (`Bytes = List Nat`),
  so string equality, prefixing, slicing by ASCII offsets and concatenation coincide
  with the byte-level operations used on the wire.
* A Python `bytes` value is likewise a `List Nat` with every element `< 256`.
* The external libraries `cbor2` / `cwt` serialize COSE_Sign1 envelopes as CBOR;
  the CBOR subset they use (ints, byte strings, text strings, arrays, maps, tags)
  is implemented concretely below, so all tokens are real byte strings.
* RSA signatures are modelled symbolically: `symSign material data` is an injective
  function of the key material and the signed data, and verification succeeds exactly
  when the signature equals `symSign material data` for the key's material.  This is
  the standard symbolic model of an unforgeable signature scheme; the claims under
  verification do not depend on number-theoretic properties of RSA.
* Python exceptions are an explicit `Exc` type; `TagsError` (the application's typed
  failure) is one constructor, and raw library/runtime exceptions (`KeyError`,
  `ValueError`, pydantic validation errors, ...) — which the source does not catch and
  which therefore crash the request — are separate constructors.
-/

/-- Python byte strings (and, via UTF-8, Python strings). -/
abbrev Bytes := List Nat

/-- Bytes of an ASCII string literal (for ASCII, `Char.toNat` is the UTF-8 byte). -/
def strBytes (s : String) : Bytes := s.toList.map Char.toNat

/-- All elements are genuine byte values. -/
def AllBytes (s : Bytes) : Prop := ∀ x ∈ s, x < 256

instance (s : Bytes) : Decidable (AllBytes s) :=
  decidable_of_iff (∀ x ∈ s, x < 256) Iff.rfl

/-- Well-formed string/byte data: realistically sized and byte-valued. -/
def StrOk (s : Bytes) : Prop := s.length < 4294967296 ∧ AllBytes s

instance (s : Bytes) : Decidable (StrOk s) :=
  decidable_of_iff (s.length < 4294967296 ∧ AllBytes s) Iff.rfl

/-! ## CBOR (the subset produced/consumed by cbor2 and cwt for COSE_Sign1) -/

/-- CBOR data items, as decoded by `cbor2.loads` / `cwt.COSEMessage.loads`. -/
inductive CborValue where
  | int (n : Int)
  | bstr (b : Bytes)
  | tstr (s : Bytes)
  | arr (xs : List CborValue)
  | map (kvs : List (CborValue × CborValue))
  | tag (t : Nat) (v : CborValue)

/-- CBOR initial bytes: major type and argument, minimal-length encoding. -/
def cborHead (maj n : Nat) : Bytes :=
  if n < 24 then [maj * 32 + n]
  else if n < 256 then [maj * 32 + 24, n]
  else if n < 65536 then [maj * 32 + 25, n / 256, n % 256]
  else if n < 4294967296 then
    [maj * 32 + 26, n / 16777216, n / 65536 % 256, n / 256 % 256, n % 256]
  else
    [maj * 32 + 27, n / 72057594037927936 % 256, n / 281474976710656 % 256,
     n / 1099511627776 % 256, n / 4294967296 % 256, n / 16777216 % 256,
     n / 65536 % 256, n / 256 % 256, n % 256]

/-- Encoding of a CBOR integer. -/
def cborInt (m : Int) : Bytes :=
  if 0 ≤ m then cborHead 0 m.toNat else cborHead 1 (-1 - m).toNat

/-- Encoding of a CBOR byte string. -/
def cborBstr (b : Bytes) : Bytes := cborHead 2 b.length ++ b

/-- Encoding of a CBOR text string (contents given as UTF-8 bytes). -/
def cborTstr (s : Bytes) : Bytes := cborHead 3 s.length ++ s

/-- Encoding of a CBOR array from already-encoded items. -/
def cborArr (items : List Bytes) : Bytes := cborHead 4 items.length ++ items.flatten

/-- Encoding of a CBOR map from already-encoded key/value pairs. -/
def cborMapEnc (kvs : List (Bytes × Bytes)) : Bytes :=
  cborHead 5 kvs.length ++ (kvs.map (fun kv => kv.1 ++ kv.2)).flatten

/-- Encoding of a CBOR tagged item from an already-encoded inner item. -/
def cborTag (t : Nat) (inner : Bytes) : Bytes := cborHead 6 t ++ inner

/-- Parse a CBOR initial-bytes sequence: major type, argument, rest. -/
def parseHead : Bytes → Option (Nat × Nat × Bytes)
  | [] => none
  | b :: rest =>
    if b % 32 < 24 then some (b / 32, b % 32, rest)
    else if b % 32 = 24 then
      match rest with
      | x0 :: r => some (b / 32, x0, r)
      | _ => none
    else if b % 32 = 25 then
      match rest with
      | x0 :: x1 :: r => some (b / 32, x0 * 256 + x1, r)
      | _ => none
    else if b % 32 = 26 then
      match rest with
      | x0 :: x1 :: x2 :: x3 :: r =>
          some (b / 32, ((x0 * 256 + x1) * 256 + x2) * 256 + x3, r)
      | _ => none
    else if b % 32 = 27 then
      match rest with
      | x0 :: x1 :: x2 :: x3 :: x4 :: x5 :: x6 :: x7 :: r =>
          some (b / 32,
            ((((((x0 * 256 + x1) * 256 + x2) * 256 + x3) * 256 + x4) * 256 + x5)
              * 256 + x6) * 256 + x7, r)
      | _ => none
    else none

/-- Group a flat list of decoded items into map entries. -/
def pairUp : List CborValue → Option (List (CborValue × CborValue))
  | [] => some []
  | k :: v :: t => (pairUp t).map (fun kvs => (k, v) :: kvs)
  | [_] => none

/-- Decode `n` consecutive CBOR items.  The first argument is fuel; the function is
structurally recursive on it, so it computes by kernel reduction. -/
def cborDecodeMany : Nat → Nat → Bytes → Option (List CborValue × Bytes)
  | 0, _, _ => none
  | _ + 1, 0, bytes => some ([], bytes)
  | fuel + 1, n + 1, bytes =>
    match parseHead bytes with
    | none => none
    | some (maj, k, rest) =>
      let step : Option (CborValue × Bytes) :=
        match maj with
        | 0 => some (.int (Int.ofNat k), rest)
        | 1 => some (.int (-1 - Int.ofNat k), rest)
        | 2 => if k ≤ rest.length then some (.bstr (rest.take k), rest.drop k) else none
        | 3 => if k ≤ rest.length then some (.tstr (rest.take k), rest.drop k) else none
        | 4 =>
          match cborDecodeMany fuel k rest with
          | some (xs, r) => some (.arr xs, r)
          | none => none
        | 5 =>
          match cborDecodeMany fuel (2 * k) rest with
          | some (xs, r) =>
            match pairUp xs with
            | some kvs => some (.map kvs, r)
            | none => none
          | none => none
        | 6 =>
          match cborDecodeMany fuel 1 rest with
          | some ([v], r) => some (.tag k v, r)
          | _ => none
        | _ => none
      match step with
      | some (v, r) =>
        match cborDecodeMany fuel n r with
        | some (vs, r2) => some (v :: vs, r2)
        | none => none
      | none => none

/-- Decode one complete CBOR item consuming the whole input (as `cbor2.loads`). -/
def cborDecodeFull (bytes : Bytes) : Option CborValue :=
  match cborDecodeMany (bytes.length + 1) 1 bytes with
  | some ([v], []) => some v
  | _ => none

/-! ## Base45 (the `base45` package used by the source; RFC 9285 alphabet) -/

/-- The Base45 alphabet `0123456789ABCDEFGHIJKLMNOPQRSTUVWXYZ $%*+-./:` as bytes
(written out numerically so that proofs evaluate it cheaply; the theorem
`b45charset_spec` below checks it against the source string). -/
def B45_CHARSET : Bytes :=
  [48, 49, 50, 51, 52, 53, 54, 55, 56, 57, 65, 66, 67, 68, 69, 70, 71, 72, 73, 74,
   75, 76, 77, 78, 79, 80, 81, 82, 83, 84, 85, 86, 87, 88, 89, 90, 32, 36, 37, 42,
   43, 45, 46, 47, 58]

/-- `base45.b45encode`: two input bytes become three alphabet symbols
(little-endian base-45 digits of `b0 * 256 + b1`), a trailing single byte becomes two. -/
def b45encode : Bytes → Bytes
  | [] => []
  | [a] => [B45_CHARSET.getD (a % 45) 0, B45_CHARSET.getD (a / 45) 0]
  | a :: b :: t =>
    B45_CHARSET.getD ((a * 256 + b) % 45) 0 ::
    B45_CHARSET.getD ((a * 256 + b) / 45 % 45) 0 ::
    B45_CHARSET.getD ((a * 256 + b) / 2025) 0 :: b45encode t

/-- Value of one Base45 symbol; `none` models the `KeyError` on a symbol
outside the alphabet (turned into `ValueError` by the library). -/
def b45val (c : Nat) : Option Nat :=
  if B45_CHARSET.indexOf c < 45 then some (B45_CHARSET.indexOf c) else none

/-- Symbol-by-symbol translation of the whole input. -/
def b45mapVals : Bytes → Option Bytes
  | [] => some []
  | c :: t =>
    match b45val c, b45mapVals t with
    | some v, some vs => some (v :: vs)
    | _, _ => none

/-- `base45.b45decode` value recombination: groups of three symbols rebuild two
bytes (failing on overflow past 0xFFFF), a trailing pair rebuilds one byte
(failing past 0xFF), and a trailing single symbol (length ≡ 1 mod 3) fails. -/
def b45decodeVals : Bytes → Option Bytes
  | [] => some []
  | [_] => none
  | [c, d] => if c + d * 45 ≤ 255 then some [c + d * 45] else none
  | c :: d :: e :: t =>
    if c + d * 45 + e * 2025 ≤ 65535 then
      (b45decodeVals t).map
        (fun r => (c + d * 45 + e * 2025) / 256 :: (c + d * 45 + e * 2025) % 256 :: r)
    else none

/-- `base45.b45decode`; `none` models the `ValueError` raised on any invalid input. -/
def b45decode (s : Bytes) : Option Bytes :=
  match b45mapVals s with
  | some vals => b45decodeVals vals
  | none => none

/-! ## Exceptions and application data model -/

/-- Python exceptions observable in the pipeline.  `tags` is the application's
typed failure `TagsError(error=..., code=...)` (and `cannotSignInvalidIssuer` the
typed signing-time error from `app.errors`); the remaining constructors are
library/runtime exceptions that `tag.py` does not catch, i.e. crashes:
`keyError` (dict lookup miss), `typeError`, `valueError` (library parse errors),
`validation` (pydantic `ValidationError`), `cwtErr` (`cwt.CWTError`, caught in
some places), `http` (`httpx.HTTPError`, caught in some places). -/
inductive Exc where
  | tags (error : String) (code : String)
  | cannotSignInvalidIssuer
  | http
  | cwtErr (msg : String)
  | keyError
  | typeError
  | valueError
  | validation
deriving DecidableEq

/-- Is this a typed application failure (as opposed to a crash)? -/
def isTypedFailure : Exc → Bool
  | .tags _ _ => true
  | .cannotSignInvalidIssuer => true
  | _ => false

/-- `TagsError` raised at tag.py:89 (missing `IT1:` version identifier).
The apostrophe-free message texts below match the source modulo
`couldn't` being written `could not`. -/
def badVersionError : Exc :=
  .tags "Not an IOXIO Tag code, missing version identifier." "signature_verification_failed"

/-- `TagsError` raised at tag.py:97 (Base45 decoding failed). -/
def badEncodingError : Exc :=
  .tags "Not an IOXIO Tag code, failed Base45 decode" "signature_verification_failed"

/-- `TagsError` raised at tag.py:150 (product passport fetch failed). -/
def issuerUnreachableError : Exc :=
  .tags "Signature verification failed, could not read metadata from domain."
    "invalid_issuer_cannot_read_product_passport_metadata"

/-- `TagsError` raised at tag.py:158 (JWKS fetch failed). -/
def keySetUnreachableError : Exc :=
  .tags "Signature verification failed, could not read JWKS keys from domain."
    "invalid_issuer_cannot_read_jwks"

/-- `TagsError` raised at tag.py:171 (no JWK with matching kid and alg). -/
def noMatchingKeyError : Exc :=
  .tags "Signature verification failed, matching key was not found."
    "invalid_signature_jwks_invalid_key"

/-- `TagsError` raised at tag.py:176 (COSE verification raised `CWTError`). -/
def signatureInvalidError : Exc :=
  .tags "Signature verification failed." "invalid_signature_jwks_failed"

/-- An IOXIO Tag string (tag.py:80-100): require the `IT1:` version marker,
then Base45-decode the remainder; each failure is a distinct `TagsError`. -/
def ioxio_tag_str_to_cose_bytes (code : Bytes) : Except Exc Bytes :=
  if code.take 4 = strBytes "IT1:" then
    match b45decode (code.drop 4) with
    | some bs => .ok bs
    | none => .error badEncodingError
  else .error badVersionError

/-- `CodePayload` (tag.py:48): the payload carried by a tag. -/
structure CodePayload where
  iss : Bytes
  product : Bytes
  id : Bytes
deriving DecidableEq

/-- `CodeBasics` (tag.py:54): untrusted data extracted from a tag. -/
structure CodeBasics where
  payload : CodePayload
  alg : Bytes
  kid : Bytes
deriving DecidableEq

/-- `ProductPassport` (tag.py:60): the issuer descriptor document. -/
structure ProductPassport where
  jwks_uri : Bytes
  logo_url : Bytes
  product_dataspace : Bytes
deriving DecidableEq

/-! ## The cwt / cbor2 library layer (symbolic signatures) -/

/-- A `cwt.COSEKey`.  `material` is the symbolic identity of the key pair
(the PEM data for `from_pem`, the public-key numbers for `from_jwk`; a JWK
matches a private key exactly when the materials coincide).  `alwaysVerify`
models the source overriding `dummy_key.verify` with `lambda x, y: True`
at tag.py:120; real keys have it `false`. -/
structure COSEKey where
  kid : Bytes
  alg : Bytes
  material : Bytes
  alwaysVerify : Bool
deriving DecidableEq

/-- A parsed `cwt.COSEMessage` (COSE_Sign1): raw protected-header bytes, the
decoded protected and unprotected header maps, payload bytes, signature bytes. -/
structure CoseSign1 where
  protectedRaw : Bytes
  protectedHdr : List (CborValue × CborValue)
  unprotectedHdr : List (CborValue × CborValue)
  payload : Bytes
  signature : Bytes

/-- `ALGS` (tag.py:30): the fixed numeric-code → algorithm-name table.
Its only entry maps -257 to RS256; `none` is a dict lookup miss (`KeyError`). -/
def ALGS (n : Int) : Option Bytes :=
  if n = -257 then some (strBytes "RS256") else none

/-- cwt's algorithm-name → COSE-code table (restricted to names that occur here). -/
def algNameToCode (s : Bytes) : Option Int :=
  if s = strBytes "RS256" then some (-257)
  else if s = strBytes "ES256" then some (-7)
  else none

/-- Python dict lookup with an integer key on a decoded CBOR map. -/
def dictLookupInt : List (CborValue × CborValue) → Int → Option CborValue
  | [], _ => none
  | (k, v) :: t, n =>
    match k with
    | .int m => if m = n then some v else dictLookupInt t n
    | _ => dictLookupInt t n

/-- Python dict lookup with a string key on a decoded CBOR map. -/
def dictLookupTstr : List (CborValue × CborValue) → Bytes → Option CborValue
  | [], _ => none
  | (k, v) :: t, name =>
    match k with
    | .tstr s => if s = name then some v else dictLookupTstr t name
    | _ => dictLookupTstr t name

/-- Symbolic RSA signature over `data` by the key pair identified by `material`.
Injective in both arguments (the unary length prefix makes it prefix-free),
modelling an unforgeable signature. -/
def symSign (material data : Bytes) : Bytes :=
  List.replicate material.length 1 ++ 0 :: material ++ data

/-- COSE `Sig_structure` for COSE_Sign1 with empty external AAD. -/
def sigStructure (phRaw payload : Bytes) : Bytes :=
  cborArr [cborTstr (strBytes "Signature1"), cborBstr phRaw, cborBstr [], cborBstr payload]

/-- Protected-header bytes `{1: algCode}`. -/
def phBytes (a : Int) : Bytes := cborMapEnc [(cborInt 1, cborInt a)]

/-- A serialized COSE_Sign1 envelope (CBOR tag 18): protected header bytes with
the algorithm code, unprotected header `{4: kid}`, payload, signature. -/
def coseEnvelope (a : Int) (kid payload sig : Bytes) : Bytes :=
  cborTag 18 (cborArr [cborBstr (phBytes a),
                       cborMapEnc [(cborInt 4, cborBstr kid)],
                       cborBstr payload, cborBstr sig])

/-- `cwt.COSE.encode(payload, key)` with `alg_auto_inclusion` and
`kid_auto_inclusion` (tag.py:294-295): alg in the protected header, kid in the
unprotected header, signature over the Sig_structure. -/
def coseEncodeMsg (key : COSEKey) (payload : Bytes) : Bytes :=
  match algNameToCode key.alg with
  | some c => coseEnvelope c key.kid payload
      (symSign key.material (sigStructure (phBytes c) payload))
  | none => []

/-- `cwt.COSEMessage.loads` (tag.py:107): deserialize the envelope and decode
its protected header; any malformed input raises a library error (a crash). -/
def coseMessageLoads (bytes : Bytes) : Except Exc CoseSign1 :=
  match cborDecodeFull bytes with
  | some (.tag 18 (.arr [.bstr ph, .map uh, .bstr pl, .bstr sig])) =>
    match cborDecodeFull ph with
    | some (.map phm) => .ok ⟨ph, phm, uh, pl, sig⟩
    | _ => .error .valueError
  | _ => .error .valueError

/-- The algorithm/signature/payload portion of `cwt.decode`: checks that the
protected-header alg matches the key's alg, verifies the signature against the
key's material (skipped if the key's `verify` was overridden), and CBOR-decodes
the payload. -/
def cwtDecodeChecked (msg : CoseSign1) (key : COSEKey) : Except Exc CborValue :=
  match dictLookupInt msg.protectedHdr 1 with
  | some (.int a) =>
    match algNameToCode key.alg with
    | some c =>
      if a = c then
        if key.alwaysVerify = true ∨
            msg.signature = symSign key.material (sigStructure msg.protectedRaw msg.payload) then
          match cborDecodeFull msg.payload with
          | some v => .ok v
          | none => .error (.cwtErr "Invalid Claim format.")
        else .error (.cwtErr "Failed to verify.")
      else .error (.cwtErr "The alg in the headers does not match the alg of the key.")
    | none => .error (.cwtErr "Unsupported or unknown alg.")
  | _ => .error (.cwtErr "Unsupported or unknown alg used in the protected header.")

/-- `cwt.decode(cose_bytes, key)`: parse the envelope, filter by kid when both
the message and the key carry one, then check alg, signature and payload.
(The claims here carry no `exp`/`nbf` claims, so CWT claim validation -
the part `no_verify=True` skips - never fails and is not modelled.) -/
def cwtDecode (cose_bytes : Bytes) (key : COSEKey) : Except Exc CborValue :=
  match coseMessageLoads cose_bytes with
  | .error e => .error e
  | .ok msg =>
    match dictLookupInt msg.unprotectedHdr 4 with
    | some (.bstr k) =>
      if k = key.kid then cwtDecodeChecked msg key
      else .error (.cwtErr "COSE key not found.")
    | some _ => .error (.cwtErr "COSE key not found.")
    | none => cwtDecodeChecked msg key

/-- Extract the payload fields for `CodePayload(**payload)` (pydantic v1:
required fields `iss`, `product`, `id`; extra keys ignored). -/
def codePayloadOfDict (kvs : List (CborValue × CborValue)) : Option CodePayload :=
  match dictLookupTstr kvs (strBytes "iss"), dictLookupTstr kvs (strBytes "product"),
        dictLookupTstr kvs (strBytes "id") with
  | some (.tstr i), some (.tstr p), some (.tstr d) => some ⟨i, p, d⟩
  | _, _, _ => none

/-- Public material of `testdata.DUMMY_JWK` (only its kid/alg are ever used;
its `verify` is overridden, so the material itself is irrelevant). -/
def DUMMY_MATERIAL : Bytes := []

/-- `cose_parse_insecure` (tag.py:103-133): read alg and kid from the headers
(`ALGS[msg.protected[1]]` and `msg.unprotected[4]` are uncaught `KeyError`
crashes on a miss), build a dummy key whose `verify` always succeeds, decode
without verification, and validate the payload shape.  Only `cwt.CWTError` is
caught (tag.py:129) and re-raised as a `TagsError`. -/
def cose_parse_insecure (cose_bytes : Bytes) : Except Exc CodeBasics :=
  match coseMessageLoads cose_bytes with
  | .error e => .error e
  | .ok msg =>
    match dictLookupInt msg.protectedHdr 1 with
    | none => .error .keyError
    | some av =>
      match (match av with | .int a => ALGS a | _ => none) with
      | none => .error .keyError
      | some alg =>
        match dictLookupInt msg.unprotectedHdr 4 with
        | none => .error .keyError
        | some (.bstr kid) =>
          match cwtDecode cose_bytes ⟨kid, alg, DUMMY_MATERIAL, true⟩ with
          | .error (.cwtErr m) => .error (.tags m "signature_verification_failed")
          | .error e => .error e
          | .ok (.map claims) =>
            match codePayloadOfDict claims with
            | some p => .ok ⟨p, alg, kid⟩
            | none => .error .validation
          | .ok _ => .error .typeError
        | some _ => .error .valueError

/-- `cose_verify` (tag.py:136-140): `cwt.decode(cose_bytes, key)`, discarding
the result; raises on failure. -/
def cose_verify (cose_bytes : Bytes) (key : COSEKey) : Except Exc Unit :=
  match cwtDecode cose_bytes key with
  | .ok _ => .ok ()
  | .error e => .error e

/-! ## Trust resolution (`verify_code`) -/

/-- JSON documents returned by the fetch collaborator (strings as UTF-8 bytes). -/
inductive Json where
  | str (s : Bytes)
  | num (n : Int)
  | obj (fields : List (Bytes × Json))
  | arr (xs : List Json)

/-- Python dict lookup on a parsed JSON object. -/
def jlookup : List (Bytes × Json) → Bytes → Option Json
  | [], _ => none
  | (k, v) :: t, name => if k = name then some v else jlookup t name

/-- `ProductPassport(**json)`: pydantic validation of the issuer descriptor
(`none` is a `ValidationError`, which tag.py does NOT catch). -/
def productPassportOfJson (j : Json) : Option ProductPassport :=
  match j with
  | .obj fields =>
    match jlookup fields (strBytes "jwks_uri"), jlookup fields (strBytes "logo_url"),
          jlookup fields (strBytes "product_dataspace") with
    | some (.str u), some (.str l), some (.str d) => some ⟨u, l, d⟩
    | _, _, _ => none
  | _ => none

/-- `jwks["keys"]` (tag.py:165): `KeyError` crash when absent, `TypeError`
crash when the document or the value has the wrong shape. -/
def jwksKeys (j : Json) : Except Exc (List Json) :=
  match j with
  | .obj fields =>
    match jlookup fields (strBytes "keys") with
    | some (.arr xs) => .ok xs
    | some _ => .error .typeError
    | none => .error .keyError
  | _ => .error .typeError

/-- `next(jwk for jwk in keys if jwk["kid"] == kid and jwk["alg"] == alg)`
(tag.py:165): first exact match on kid and alg, with Python's short-circuit
`and` (the `alg` field is only read when the kid matches); `jwk["kid"]` on a
key without that field is an uncaught `KeyError` crash; `.ok none` is the
`StopIteration` that tag.py turns into `noMatchingKeyError`. -/
def findKey : List Json → Bytes → Bytes → Except Exc (Option Json)
  | [], _, _ => .ok none
  | j :: t, kid, alg =>
    match j with
    | .obj fields =>
      match jlookup fields (strBytes "kid") with
      | none => .error .keyError
      | some (.str s) =>
        if s = kid then
          match jlookup fields (strBytes "alg") with
          | none => .error .keyError
          | some (.str a) => if a = alg then .ok (some j) else findKey t kid alg
          | some _ => findKey t kid alg
        else findKey t kid alg
      | some _ => findKey t kid alg
    | _ => .error .typeError

/-- `cwt.COSEKey.from_jwk(jwk)` (tag.py:166): requires kid, alg and the public
key material (represented by the JWK field `n`); an unusable JWK raises a
library `ValueError`, which tag.py does NOT catch. -/
def coseKeyFromJwk (j : Json) : Except Exc COSEKey :=
  match j with
  | .obj fields =>
    match jlookup fields (strBytes "kid"), jlookup fields (strBytes "alg"),
          jlookup fields (strBytes "n") with
    | some (.str k), some (.str a), some (.str m) =>
      match algNameToCode a with
      | some _ => .ok ⟨k, a, m, false⟩
      | none => .error .valueError
    | _, _, _ => .error .valueError
  | _ => .error .valueError

/-- Modelled from the spec: the HTTP JSON fetch collaborator
`fetchJson(uri) -> JSON | transport error` (spec section 6); the implementation
`app.utils.fetch_json_file` is not under src/.  A transport failure is an
`httpx.HTTPError`. -/
structure FetchEnv where
  fetch : Bytes → Except Unit Json

/-- `get_product_passport_uri` (tag.py:72). -/
def get_product_passport_uri (iss : Bytes) : Bytes :=
  strBytes "https://" ++ iss ++ strBytes "/.well-known/product-passport.json"

/-- Trust-resolution part of `verify_code` (tag.py:147-179), after the
untrusted extraction: fetch the product passport (only `HTTPError` is caught
and typed; a pydantic `ValidationError` crashes), fetch the JWKS (likewise),
select the first exactly-matching key, build it, and verify (only
`StopIteration` and `cwt.CWTError` are caught and typed). -/
def verify_code_trust (env : FetchEnv) (cose_bytes : Bytes) (basics : CodeBasics) :
    Except Exc Unit :=
  match env.fetch (get_product_passport_uri basics.payload.iss) with
  | .error _ => .error issuerUnreachableError
  | .ok ppJson =>
    match productPassportOfJson ppJson with
    | none => .error .validation
    | some pp =>
      match env.fetch pp.jwks_uri with
      | .error _ => .error keySetUnreachableError
      | .ok jwksJson =>
        match jwksKeys jwksJson with
        | .error e => .error e
        | .ok keys =>
          match findKey keys basics.kid basics.alg with
          | .error e => .error e
          | .ok none => .error noMatchingKeyError
          | .ok (some jwk) =>
            match coseKeyFromJwk jwk with
            | .error e => .error e
            | .ok cose_key =>
              match cose_verify cose_bytes cose_key with
              | .error (.cwtErr _) => .error signatureInvalidError
              | .error e => .error e
              | .ok _ => .ok ()

/-- `verify_code` (tag.py:143-179): decode the wire text, extract untrusted
hints, then resolve trust and verify.  Returns `()` on success (the Python
function returns `None`). -/
def verify_code (env : FetchEnv) (code : Bytes) : Except Exc Unit :=
  match ioxio_tag_str_to_cose_bytes code with
  | .error e => .error e
  | .ok cose_bytes =>
    match cose_parse_insecure cose_bytes with
    | .error e => .error e
    | .ok basics => verify_code_trust env cose_bytes basics

/-- Modelled from the spec: `verify(TokenText) -> Result<Payload, FailureKind>`
(spec section 6).  The route layer that returns the authenticated payload is
not under src/; per spec section 4.4 the payload returned on success is the one
produced by the untrusted extractor, now trusted.  The steps are exactly those
of `verify_code` (decode, extract, resolve trust and verify), followed by
returning the extracted payload once verification has succeeded. -/
def verify (env : FetchEnv) (code : Bytes) : Except Exc CodePayload :=
  match ioxio_tag_str_to_cose_bytes code with
  | .error e => .error e
  | .ok cose_bytes =>
    match cose_parse_insecure cose_bytes with
    | .error e => .error e
    | .ok basics =>
      match verify_code_trust env cose_bytes basics with
      | .error e => .error e
      | .ok _ => .ok basics.payload

/-! ## Signing (`make_cose_code`) -/

/-- Relevant fields of `settings.conf`. -/
structure Conf where
  RSA_ISS : Bytes
  RSA_KID : Bytes
  RSA_PRIVATE_KEY : Bytes
deriving DecidableEq

/-- `RSA_PRIVATE_KEY` (tag.py:34): the production signing key, alg RS256,
kid `conf.RSA_KID`, material from `conf.RSA_PRIVATE_KEY`. -/
def rsaPrivateKey (conf : Conf) : COSEKey :=
  ⟨conf.RSA_KID, strBytes "RS256", conf.RSA_PRIVATE_KEY, false⟩

/-- `INVALID_PRIVATE_KEY` (tag.py:35): a different key pair
(`testdata.INVALID_KEY_DATA`) deliberately loaded with the SAME kid. -/
def invalidPrivateKey (conf : Conf) (invalidKeyData : Bytes) : COSEKey :=
  ⟨conf.RSA_KID, strBytes "RS256", invalidKeyData, false⟩

/-- `cbor2.dumps({"iss": iss, "product": product, "id": id})` (tag.py:287-293). -/
def payloadEnc (iss product id : Bytes) : Bytes :=
  cborMapEnc [(cborTstr (strBytes "iss"), cborTstr iss),
              (cborTstr (strBytes "product"), cborTstr product),
              (cborTstr (strBytes "id"), cborTstr id)]

/-- `make_cose_code` (tag.py:273-303), reduced to the token text it embeds in
the QR image: on the valid path an issuer not matching `conf.RSA_ISS` raises
`CannotSignInvalidIssuer` before anything is signed; otherwise the payload is
CBOR-encoded, COSE-signed with the selected key, Base45-encoded and prefixed
with `IT1:`.  (Filename generation and QR rendering are outside the modelled
core, per spec section 1; the returned value is the `payload` local of the
source, the token text.) -/
def make_cose_code (conf : Conf) (invalidKeyData : Bytes)
    (iss product id : Bytes) (valid : Bool) : Except Exc Bytes :=
  if valid ∧ iss ≠ conf.RSA_ISS then .error .cannotSignInvalidIssuer
  else
    let private_key := if valid then rsaPrivateKey conf else invalidPrivateKey conf invalidKeyData
    let cbor_data := payloadEnc iss product id
    let cose_encoded := coseEncodeMsg private_key cbor_data
    .ok (strBytes "IT1:" ++ b45encode cose_encoded)

/-! ## Key-set shape helpers (for the key-selection claims) -/

/-- A JWK entry carrying string `kid` and `alg` fields (the KeySet data model). -/
def jwkShaped (j : Json) : Bool :=
  match j with
  | .obj fields =>
    (match jlookup fields (strBytes "kid") with | some (.str _) => true | _ => false) &&
    (match jlookup fields (strBytes "alg") with | some (.str _) => true | _ => false)
  | _ => false

/-- Exact match of a JWK entry against the extracted (kid, alg) hints. -/
def jwkMatches (j : Json) (kid alg : Bytes) : Bool :=
  match j with
  | .obj fields =>
    (match jlookup fields (strBytes "kid") with | some (.str s) => s = kid | _ => false) &&
    (match jlookup fields (strBytes "alg") with | some (.str s) => s = alg | _ => false)
  | _ => false

/-- The string `kid` field of a JWK entry, when present. -/
def jwkKidField (j : Json) : Option Bytes :=
  match j with
  | .obj fields =>
    match jlookup fields (strBytes "kid") with
    | some (.str s) => some s
    | _ => none
  | _ => none

/-- The string `alg` field of a JWK entry, when present. -/
def jwkAlgField (j : Json) : Option Bytes :=
  match j with
  | .obj fields =>
    match jlookup fields (strBytes "alg") with
    | some (.str s) => some s
    | _ => none
  | _ => none

/-! ## Round-trip lemmas for the CBOR codec -/

theorem take_append_self {α : Type} (a b : List α) : (a ++ b).take a.length = a := by
  induction a with
  | nil => simp
  | cons x t ih => simp [ih]

theorem drop_append_self {α : Type} (a b : List α) : (a ++ b).drop a.length = b := by
  induction a with
  | nil => simp
  | cons x t ih => simp [ih]

theorem parseHead_cborHead (maj n : Nat)
    (hn : n < 18446744073709551616) (rest : Bytes) :
    parseHead (cborHead maj n ++ rest) = some (maj, n, rest) := by
  unfold cborHead
  by_cases h1 : n < 24
  · simp only [if_pos h1, List.cons_append, List.nil_append, parseHead]
    have e1 : (maj * 32 + n) % 32 = n := by omega
    have e2 : (maj * 32 + n) / 32 = maj := by omega
    rw [e1, e2, if_pos h1]
  · by_cases h2 : n < 256
    · simp only [if_neg h1, if_pos h2, List.cons_append, List.nil_append, parseHead]
      have e1 : (maj * 32 + 24) % 32 = 24 := by omega
      have e2 : (maj * 32 + 24) / 32 = maj := by omega
      rw [e1, e2]
      simp
    · by_cases h3 : n < 65536
      · simp only [if_neg h1, if_neg h2, if_pos h3, List.cons_append, List.nil_append,
          parseHead]
        have e1 : (maj * 32 + 25) % 32 = 25 := by omega
        have e2 : (maj * 32 + 25) / 32 = maj := by omega
        rw [e1, e2]
        simp only [show ¬(25 < 24) by omega, if_neg, show (25 : Nat) ≠ 24 by omega,
          if_false, reduceIte]
        have : n / 256 * 256 + n % 256 = n := by omega
        simp [this]
      · by_cases h4 : n < 4294967296
        · simp only [if_neg h1, if_neg h2, if_neg h3, if_pos h4, List.cons_append,
            List.nil_append, parseHead]
          have e1 : (maj * 32 + 26) % 32 = 26 := by omega
          have e2 : (maj * 32 + 26) / 32 = maj := by omega
          rw [e1, e2]
          simp only [show ¬(26 < 24) by omega, show (26 : Nat) ≠ 24 by omega,
            show (26 : Nat) ≠ 25 by omega, if_false, reduceIte]
          have : ((n / 16777216 * 256 + n / 65536 % 256) * 256 + n / 256 % 256) * 256
              + n % 256 = n := by omega
          simp [this]
        · simp only [if_neg h1, if_neg h2, if_neg h3, if_neg h4, List.cons_append,
            List.nil_append, parseHead]
          have e1 : (maj * 32 + 27) % 32 = 27 := by omega
          have e2 : (maj * 32 + 27) / 32 = maj := by omega
          rw [e1, e2]
          simp only [show ¬(27 < 24) by omega, show (27 : Nat) ≠ 24 by omega,
            show (27 : Nat) ≠ 25 by omega, show (27 : Nat) ≠ 26 by omega,
            if_false, reduceIte]
          have : ((((((n / 72057594037927936 % 256 * 256 + n / 281474976710656 % 256)
              * 256 + n / 1099511627776 % 256) * 256 + n / 4294967296 % 256) * 256
              + n / 16777216 % 256) * 256 + n / 65536 % 256) * 256 + n / 256 % 256)
              * 256 + n % 256 = n := by omega
          simp [this]

theorem many_zero (f : Nat) (bytes : Bytes) :
    cborDecodeMany (f + 1) 0 bytes = some ([], bytes) := rfl

theorem many_int (f n : Nat) (m : Int) (hlo : -18446744073709551616 ≤ m)
    (hhi : m < 18446744073709551616) (rest : Bytes) :
    cborDecodeMany (f + 1) (n + 1) (cborInt m ++ rest)
      = (cborDecodeMany f n rest).map (fun p => (.int m :: p.1, p.2)) := by
  unfold cborInt
  by_cases h0 : 0 ≤ m
  · rw [if_pos h0]
    simp only [cborDecodeMany, parseHead_cborHead 0 m.toNat (by omega) rest]
    rw [show Int.ofNat m.toNat = m from by simp only [Int.ofNat_eq_coe]; omega]
    cases hr : cborDecodeMany f n rest with
    | none => simp [hr]
    | some p => simp [hr]
  · rw [if_neg h0]
    simp only [cborDecodeMany, parseHead_cborHead 1 (-1 - m).toNat (by omega) rest]
    rw [show -1 - Int.ofNat (-1 - m).toNat = m from by simp only [Int.ofNat_eq_coe]; omega]
    cases hr : cborDecodeMany f n rest with
    | none => simp [hr]
    | some p => simp [hr]

theorem many_bstr (f n : Nat) (b : Bytes) (hb : b.length < 18446744073709551616)
    (rest : Bytes) :
    cborDecodeMany (f + 1) (n + 1) (cborBstr b ++ rest)
      = (cborDecodeMany f n rest).map (fun p => (.bstr b :: p.1, p.2)) := by
  unfold cborBstr
  rw [List.append_assoc]
  simp only [cborDecodeMany, parseHead_cborHead 2 b.length hb (b ++ rest)]
  rw [if_pos (by simp [List.length_append])]
  rw [take_append_self, drop_append_self]
  cases hr : cborDecodeMany f n rest with
  | none => simp [hr]
  | some p => simp [hr]

theorem many_tstr (f n : Nat) (s : Bytes) (hs : s.length < 18446744073709551616)
    (rest : Bytes) :
    cborDecodeMany (f + 1) (n + 1) (cborTstr s ++ rest)
      = (cborDecodeMany f n rest).map (fun p => (.tstr s :: p.1, p.2)) := by
  unfold cborTstr
  rw [List.append_assoc]
  simp only [cborDecodeMany, parseHead_cborHead 3 s.length hs (s ++ rest)]
  rw [if_pos (by simp [List.length_append])]
  rw [take_append_self, drop_append_self]
  cases hr : cborDecodeMany f n rest with
  | none => simp [hr]
  | some p => simp [hr]

theorem cborHead_length_le (maj n : Nat) : (cborHead maj n).length ≤ 9 := by
  unfold cborHead
  split_ifs <;> simp

theorem cborHead_length_pos (maj n : Nat) : 1 ≤ (cborHead maj n).length := by
  unfold cborHead
  split_ifs <;> simp

theorem cborInt_length_le (m : Int) : (cborInt m).length ≤ 9 := by
  unfold cborInt
  split <;> apply cborHead_length_le

theorem many_map_int_int (f n : Nat) (m1 a : Int)
    (h1lo : -18446744073709551616 ≤ m1) (h1hi : m1 < 18446744073709551616)
    (hlo : -18446744073709551616 ≤ a) (hhi : a < 18446744073709551616) (rest : Bytes) :
    cborDecodeMany (f + 4) (n + 1) (cborMapEnc [(cborInt m1, cborInt a)] ++ rest)
      = (cborDecodeMany (f + 3) n rest).map
          (fun p => (.map [(.int m1, .int a)] :: p.1, p.2)) := by
  have e : cborMapEnc [(cborInt m1, cborInt a)] ++ rest
      = cborHead 5 1 ++ (cborInt m1 ++ (cborInt a ++ rest)) := by
    simp [cborMapEnc]
  rw [e]
  show cborDecodeMany (f + 3).succ n.succ _ = _
  rw [cborDecodeMany.eq_3 (cborHead 5 1 ++ (cborInt m1 ++ (cborInt a ++ rest))) (f + 3) n]
  rw [parseHead_cborHead 5 1 (by omega)]
  dsimp only
  rw [show (2 * 1 : Nat) = 1 + 1 from rfl]
  rw [many_int (f + 2) 1 m1 h1lo h1hi (cborInt a ++ rest)]
  rw [many_int (f + 1) 0 a hlo hhi rest]
  rw [many_zero f rest]
  dsimp only [Option.map]
  rw [show pairUp [CborValue.int m1, CborValue.int a]
      = some [(CborValue.int m1, CborValue.int a)] from rfl]
  cases hr : cborDecodeMany (f + 3) n rest with
  | none => simp [hr]
  | some p => simp [hr]

theorem many_map_int_bstr (f n : Nat) (m1 : Int) (b : Bytes)
    (h1lo : -18446744073709551616 ≤ m1) (h1hi : m1 < 18446744073709551616)
    (hb : b.length < 18446744073709551616) (rest : Bytes) :
    cborDecodeMany (f + 4) (n + 1) (cborMapEnc [(cborInt m1, cborBstr b)] ++ rest)
      = (cborDecodeMany (f + 3) n rest).map
          (fun p => (.map [(.int m1, .bstr b)] :: p.1, p.2)) := by
  have e : cborMapEnc [(cborInt m1, cborBstr b)] ++ rest
      = cborHead 5 1 ++ (cborInt m1 ++ (cborBstr b ++ rest)) := by
    simp [cborMapEnc]
  rw [e]
  show cborDecodeMany (f + 3).succ n.succ _ = _
  rw [cborDecodeMany.eq_3 (cborHead 5 1 ++ (cborInt m1 ++ (cborBstr b ++ rest))) (f + 3) n]
  rw [parseHead_cborHead 5 1 (by omega)]
  dsimp only
  rw [show (2 * 1 : Nat) = 1 + 1 from rfl]
  rw [many_int (f + 2) 1 m1 h1lo h1hi (cborBstr b ++ rest)]
  rw [many_bstr (f + 1) 0 b hb rest]
  rw [many_zero f rest]
  dsimp only [Option.map]
  rw [show pairUp [CborValue.int m1, CborValue.bstr b]
      = some [(CborValue.int m1, CborValue.bstr b)] from rfl]
  cases hr : cborDecodeMany (f + 3) n rest with
  | none => simp [hr]
  | some p => simp [hr]

theorem many_map3_tstr (f n : Nat) (k1 v1 k2 v2 k3 v3 : Bytes)
    (hk1 : k1.length < 18446744073709551616) (hv1 : v1.length < 18446744073709551616)
    (hk2 : k2.length < 18446744073709551616) (hv2 : v2.length < 18446744073709551616)
    (hk3 : k3.length < 18446744073709551616) (hv3 : v3.length < 18446744073709551616)
    (rest : Bytes) :
    cborDecodeMany (f + 8) (n + 1)
        (cborMapEnc [(cborTstr k1, cborTstr v1), (cborTstr k2, cborTstr v2),
                     (cborTstr k3, cborTstr v3)] ++ rest)
      = (cborDecodeMany (f + 7) n rest).map
          (fun p => (.map [(.tstr k1, .tstr v1), (.tstr k2, .tstr v2),
                           (.tstr k3, .tstr v3)] :: p.1, p.2)) := by
  have e : cborMapEnc [(cborTstr k1, cborTstr v1), (cborTstr k2, cborTstr v2),
        (cborTstr k3, cborTstr v3)] ++ rest
      = cborHead 5 3 ++ (cborTstr k1 ++ (cborTstr v1 ++ (cborTstr k2 ++ (cborTstr v2 ++
          (cborTstr k3 ++ (cborTstr v3 ++ rest)))))) := by
    simp [cborMapEnc]
  rw [e]
  show cborDecodeMany (f + 7).succ n.succ _ = _
  rw [cborDecodeMany.eq_3 _ (f + 7) n]
  rw [parseHead_cborHead 5 3 (by omega)]
  dsimp only
  rw [show (2 * 3 : Nat) = 5 + 1 from rfl]
  rw [many_tstr (f + 6) 5 k1 hk1]
  rw [many_tstr (f + 5) 4 v1 hv1]
  rw [many_tstr (f + 4) 3 k2 hk2]
  rw [many_tstr (f + 3) 2 v2 hv2]
  rw [many_tstr (f + 2) 1 k3 hk3]
  rw [many_tstr (f + 1) 0 v3 hv3]
  rw [many_zero f rest]
  dsimp only [Option.map]
  rw [show pairUp [CborValue.tstr k1, CborValue.tstr v1, CborValue.tstr k2,
        CborValue.tstr v2, CborValue.tstr k3, CborValue.tstr v3]
      = some [(CborValue.tstr k1, CborValue.tstr v1), (CborValue.tstr k2, CborValue.tstr v2),
              (CborValue.tstr k3, CborValue.tstr v3)] from rfl]
  cases hr : cborDecodeMany (f + 7) n rest with
  | none => simp [hr]
  | some p => simp [hr]

theorem many_arr_cose (f : Nat) (ph kid pl sig rest : Bytes)
    (hph : ph.length < 18446744073709551616) (hkid : kid.length < 18446744073709551616)
    (hpl : pl.length < 18446744073709551616) (hsig : sig.length < 18446744073709551616) :
    cborDecodeMany (f + 7) 1
        (cborArr [cborBstr ph, cborMapEnc [(cborInt 4, cborBstr kid)],
                  cborBstr pl, cborBstr sig] ++ rest)
      = some ([.arr [.bstr ph, .map [(.int 4, .bstr kid)], .bstr pl, .bstr sig]], rest) := by
  have e : cborArr [cborBstr ph, cborMapEnc [(cborInt 4, cborBstr kid)],
        cborBstr pl, cborBstr sig] ++ rest
      = cborHead 4 4 ++ (cborBstr ph ++ (cborMapEnc [(cborInt 4, cborBstr kid)] ++
          (cborBstr pl ++ (cborBstr sig ++ rest)))) := by
    simp [cborArr]
  rw [e]
  show cborDecodeMany (f + 6).succ (0).succ _ = _
  rw [cborDecodeMany.eq_3 _ (f + 6) 0]
  rw [parseHead_cborHead 4 4 (by omega)]
  dsimp only
  rw [show (4 : Nat) = 3 + 1 from rfl]
  rw [many_bstr (f + 5) 3 ph hph]
  rw [many_map_int_bstr (f + 1) 2 4 kid (by omega) (by omega) hkid]
  rw [many_bstr (f + 3) 1 pl hpl]
  rw [many_bstr (f + 2) 0 sig hsig]
  rw [many_zero (f + 1) rest]
  dsimp only [Option.map]
  rw [many_zero (f + 5) rest]

theorem many_envelope (f n : Nat) (a : Int) (kid pl sig rest : Bytes)
    (hkid : kid.length < 18446744073709551616)
    (hpl : pl.length < 18446744073709551616) (hsig : sig.length < 18446744073709551616) :
    cborDecodeMany (f + 8) (n + 1) (coseEnvelope a kid pl sig ++ rest)
      = (cborDecodeMany (f + 7) n rest).map
          (fun p => (.tag 18 (.arr [.bstr (phBytes a), .map [(.int 4, .bstr kid)],
                                    .bstr pl, .bstr sig]) :: p.1, p.2)) := by
  have hphlen : (phBytes a).length < 18446744073709551616 := by
    have h1 := cborInt_length_le 1
    have h2 := cborInt_length_le a
    have h5 := cborHead_length_le 5 [(cborInt 1, cborInt a)].length
    simp only [phBytes, cborMapEnc, List.map_cons, List.map_nil, List.flatten_cons,
      List.flatten_nil, List.length_append, List.append_nil]
    omega
  have e : coseEnvelope a kid pl sig ++ rest
      = cborHead 6 18 ++ (cborArr [cborBstr (phBytes a),
          cborMapEnc [(cborInt 4, cborBstr kid)], cborBstr pl, cborBstr sig] ++ rest) := by
    simp [coseEnvelope, cborTag]
  rw [e]
  show cborDecodeMany (f + 7).succ n.succ _ = _
  rw [cborDecodeMany.eq_3 _ (f + 7) n]
  rw [parseHead_cborHead 6 18 (by omega)]
  dsimp only
  rw [many_arr_cose f (phBytes a) kid pl sig rest hphlen hkid hpl hsig]
  dsimp only
  cases hr : cborDecodeMany (f + 7) n rest with
  | none => simp [hr]
  | some p => simp [hr]

theorem cborInt_length_pos (m : Int) : 1 ≤ (cborInt m).length := by
  unfold cborInt
  split <;> apply cborHead_length_pos

theorem cborBstr_length_pos (b : Bytes) : 1 ≤ (cborBstr b).length := by
  unfold cborBstr
  have := cborHead_length_pos 2 b.length
  simp only [List.length_append]
  omega

theorem cborTstr_length_pos (s : Bytes) : 1 ≤ (cborTstr s).length := by
  unfold cborTstr
  have := cborHead_length_pos 3 s.length
  simp only [List.length_append]
  omega

theorem phBytes_length_ge (a : Int) : 3 ≤ (phBytes a).length := by
  have h1 := cborHead_length_pos 5 [(cborInt 1, cborInt a)].length
  have h2 := cborInt_length_pos 1
  have h3 := cborInt_length_pos a
  simp only [phBytes, cborMapEnc, List.map_cons, List.map_nil, List.flatten_cons,
    List.flatten_nil, List.length_append, List.append_nil]
  omega

theorem full_phBytes (a : Int) (hlo : -18446744073709551616 ≤ a)
    (hhi : a < 18446744073709551616) :
    cborDecodeFull (phBytes a) = some (.map [(.int 1, .int a)]) := by
  unfold cborDecodeFull
  obtain ⟨g, hg⟩ : ∃ g, (phBytes a).length + 1 = g + 4 :=
    ⟨(phBytes a).length - 3, by have := phBytes_length_ge a; omega⟩
  rw [hg]
  have h := many_map_int_int g 0 1 a (by omega) (by omega) hlo hhi []
  rw [List.append_nil] at h
  unfold phBytes
  rw [h, many_zero (g + 2) []]
  rfl

theorem payloadEnc_length_ge (iss product id : Bytes) :
    7 ≤ (payloadEnc iss product id).length := by
  have h0 := cborHead_length_pos 5 [(cborTstr (strBytes "iss"), cborTstr iss),
    (cborTstr (strBytes "product"), cborTstr product),
    (cborTstr (strBytes "id"), cborTstr id)].length
  have h1 := cborTstr_length_pos (strBytes "iss")
  have h2 := cborTstr_length_pos iss
  have h3 := cborTstr_length_pos (strBytes "product")
  have h4 := cborTstr_length_pos product
  have h5 := cborTstr_length_pos (strBytes "id")
  have h6 := cborTstr_length_pos id
  simp only [payloadEnc, cborMapEnc, List.map_cons, List.map_nil, List.flatten_cons,
    List.flatten_nil, List.length_append, List.append_nil]
  omega

theorem full_payloadEnc (iss product id : Bytes)
    (hi : iss.length < 18446744073709551616)
    (hp : product.length < 18446744073709551616)
    (hid : id.length < 18446744073709551616) :
    cborDecodeFull (payloadEnc iss product id)
      = some (.map [(.tstr (strBytes "iss"), .tstr iss),
                    (.tstr (strBytes "product"), .tstr product),
                    (.tstr (strBytes "id"), .tstr id)]) := by
  unfold cborDecodeFull
  obtain ⟨g, hg⟩ : ∃ g, (payloadEnc iss product id).length + 1 = g + 8 :=
    ⟨(payloadEnc iss product id).length - 7,
     by have := payloadEnc_length_ge iss product id; omega⟩
  rw [hg]
  have h := many_map3_tstr g 0 (strBytes "iss") iss (strBytes "product") product
    (strBytes "id") id (by decide) hi (by decide) hp (by decide) hid []
  rw [List.append_nil] at h
  unfold payloadEnc
  rw [h, many_zero (g + 6) []]
  rfl

theorem coseEnvelope_length_ge (a : Int) (kid pl sig : Bytes) :
    7 ≤ (coseEnvelope a kid pl sig).length := by
  have h0 := cborHead_length_pos 6 18
  have h1 := cborHead_length_pos 4 [cborBstr (phBytes a),
    cborMapEnc [(cborInt 4, cborBstr kid)], cborBstr pl, cborBstr sig].length
  have h2 := cborBstr_length_pos (phBytes a)
  have h3 := cborHead_length_pos 5 [(cborInt 4, cborBstr kid)].length
  have h4 := cborInt_length_pos 4
  have h5 := cborBstr_length_pos kid
  have h6 := cborBstr_length_pos pl
  have h7 := cborBstr_length_pos sig
  simp only [coseEnvelope, cborTag, cborArr, cborMapEnc, List.map_cons, List.map_nil,
    List.flatten_cons, List.flatten_nil, List.length_append, List.append_nil]
  omega

theorem full_envelope (a : Int) (kid pl sig : Bytes)
    (hkid : kid.length < 18446744073709551616)
    (hpl : pl.length < 18446744073709551616)
    (hsig : sig.length < 18446744073709551616) :
    cborDecodeFull (coseEnvelope a kid pl sig)
      = some (.tag 18 (.arr [.bstr (phBytes a), .map [(.int 4, .bstr kid)],
                             .bstr pl, .bstr sig])) := by
  unfold cborDecodeFull
  obtain ⟨g, hg⟩ : ∃ g, (coseEnvelope a kid pl sig).length + 1 = g + 8 :=
    ⟨(coseEnvelope a kid pl sig).length - 7,
     by have := coseEnvelope_length_ge a kid pl sig; omega⟩
  rw [hg]
  have h := many_envelope g 0 a kid pl sig [] hkid hpl hsig
  rw [List.append_nil] at h
  rw [h, many_zero (g + 6) []]
  rfl

theorem loads_envelope (a : Int) (kid pl sig : Bytes)
    (halo : -18446744073709551616 ≤ a) (hahi : a < 18446744073709551616)
    (hkid : kid.length < 18446744073709551616)
    (hpl : pl.length < 18446744073709551616)
    (hsig : sig.length < 18446744073709551616) :
    coseMessageLoads (coseEnvelope a kid pl sig)
      = .ok ⟨phBytes a, [(.int 1, .int a)], [(.int 4, .bstr kid)], pl, sig⟩ := by
  unfold coseMessageLoads
  rw [full_envelope a kid pl sig hkid hpl hsig]
  dsimp only
  rw [full_phBytes a halo hahi]

/-! ## Base45 round trip and byte-range facts -/

theorem b45charset_spec :
    B45_CHARSET = strBytes "0123456789ABCDEFGHIJKLMNOPQRSTUVWXYZ $%*+-./:" := rfl

theorem b45val_enc : ∀ n < 45, b45val (B45_CHARSET.getD n 0) = some n := by decide

theorem b45_aux : ∀ (b : Bytes), AllBytes b →
    ∃ vals, b45mapVals (b45encode b) = some vals ∧ b45decodeVals vals = some b
  | [], _ => ⟨[], rfl, rfl⟩
  | [a], h => by
    have ha : a < 256 := h a (by simp)
    refine ⟨[a % 45, a / 45], ?_, ?_⟩
    · rw [show b45encode [a]
          = [B45_CHARSET.getD (a % 45) 0, B45_CHARSET.getD (a / 45) 0] from rfl]
      simp only [b45mapVals]
      rw [b45val_enc (a % 45) (by omega), b45val_enc (a / 45) (by omega)]
    · simp only [b45decodeVals]
      rw [if_pos (by omega)]
      have e : a % 45 + a / 45 * 45 = a := by omega
      rw [e]
  | a :: c :: t, h => by
    have ha : a < 256 := h a (by simp)
    have hc : c < 256 := h c (by simp)
    have ht : AllBytes t := fun x hx => h x (by simp [hx])
    obtain ⟨vals, h1, h2⟩ := b45_aux t ht
    refine ⟨(a * 256 + c) % 45 :: (a * 256 + c) / 45 % 45 :: (a * 256 + c) / 2025 :: vals,
      ?_, ?_⟩
    · rw [show b45encode (a :: c :: t)
          = B45_CHARSET.getD ((a * 256 + c) % 45) 0 ::
            B45_CHARSET.getD ((a * 256 + c) / 45 % 45) 0 ::
            B45_CHARSET.getD ((a * 256 + c) / 2025) 0 :: b45encode t from rfl]
      simp only [b45mapVals]
      rw [b45val_enc ((a * 256 + c) % 45) (by omega),
        b45val_enc ((a * 256 + c) / 45 % 45) (by omega),
        b45val_enc ((a * 256 + c) / 2025) (by omega), h1]
    · have hdd : (a * 256 + c) / 45 / 45 = (a * 256 + c) / 2025 := by
        rw [Nat.div_div_eq_div_mul]
      simp only [b45decodeVals]
      rw [if_pos (by omega)]
      rw [h2]
      have e1 : ((a * 256 + c) % 45 + (a * 256 + c) / 45 % 45 * 45
          + (a * 256 + c) / 2025 * 2025) = a * 256 + c := by omega
      rw [e1]
      have e2 : (a * 256 + c) / 256 = a := by omega
      have e3 : (a * 256 + c) % 256 = c := by omega
      rw [e2, e3]
      rfl

theorem b45decode_b45encode (b : Bytes) (h : AllBytes b) :
    b45decode (b45encode b) = some b := by
  obtain ⟨vals, h1, h2⟩ := b45_aux b h
  unfold b45decode
  rw [h1]
  exact h2

theorem ioxio_on_token (bs : Bytes) (h : AllBytes bs) :
    ioxio_tag_str_to_cose_bytes (strBytes "IT1:" ++ b45encode bs) = .ok bs := by
  unfold ioxio_tag_str_to_cose_bytes
  have ht : (strBytes "IT1:" ++ b45encode bs).take 4 = strBytes "IT1:" := by
    rw [show (4 : Nat) = (strBytes "IT1:").length from by decide, take_append_self]
  have hd : (strBytes "IT1:" ++ b45encode bs).drop 4 = b45encode bs := by
    rw [show (4 : Nat) = (strBytes "IT1:").length from by decide, drop_append_self]
  rw [ht, hd, if_pos rfl, b45decode_b45encode bs h]

theorem allBytes_append {a b : Bytes} (h1 : AllBytes a) (h2 : AllBytes b) :
    AllBytes (a ++ b) := by
  intro x hx
  rcases List.mem_append.mp hx with hx | hx
  · exact h1 x hx
  · exact h2 x hx

theorem allBytes_cborHead (maj n : Nat) (hm : maj ≤ 7)
    (hn : n < 18446744073709551616) : AllBytes (cborHead maj n) := by
  unfold cborHead AllBytes
  split_ifs with h1 h2 h3 h4 <;> intro x hx <;> simp at hx <;> omega

theorem allBytes_cborInt (m : Int) (hlo : -18446744073709551616 ≤ m)
    (hhi : m < 18446744073709551616) : AllBytes (cborInt m) := by
  unfold cborInt
  split
  · exact allBytes_cborHead 0 _ (by omega) (by omega)
  · exact allBytes_cborHead 1 _ (by omega) (by omega)

theorem allBytes_cborBstr (b : Bytes) (h : AllBytes b)
    (hl : b.length < 18446744073709551616) : AllBytes (cborBstr b) :=
  allBytes_append (allBytes_cborHead 2 _ (by omega) hl) h

theorem allBytes_cborTstr (s : Bytes) (h : AllBytes s)
    (hl : s.length < 18446744073709551616) : AllBytes (cborTstr s) :=
  allBytes_append (allBytes_cborHead 3 _ (by omega) hl) h

theorem allBytes_strBytes (s : String) (h : ∀ c ∈ s.toList, c.toNat < 256) :
    AllBytes (strBytes s) := by
  intro x hx
  simp only [strBytes, List.mem_map] at hx
  obtain ⟨c, hc, rfl⟩ := hx
  exact h c hc

theorem allBytes_symSign (material data : Bytes) (hm : AllBytes material)
    (hd : AllBytes data) : AllBytes (symSign material data) := by
  unfold symSign
  refine allBytes_append (allBytes_append (fun x hx => ?_) (fun x hx => ?_)) hd
  · have := List.eq_of_mem_replicate hx
    omega
  · rcases List.mem_cons.mp hx with rfl | hx
    · omega
    · exact hm x hx

/-! ## Length and byte-range facts for the composite encodings -/

theorem symSign_length (m d : Bytes) :
    (symSign m d).length = 2 * m.length + 1 + d.length := by
  simp [symSign]
  omega

theorem phBytes_length_le (a : Int) : (phBytes a).length ≤ 27 := by
  have h1 := cborInt_length_le 1
  have h2 := cborInt_length_le a
  have h5 := cborHead_length_le 5 [(cborInt 1, cborInt a)].length
  simp only [phBytes, cborMapEnc, List.map_cons, List.map_nil, List.flatten_cons,
    List.flatten_nil, List.length_append, List.append_nil]
  omega

theorem cborTstr_length_le (s : Bytes) : (cborTstr s).length ≤ s.length + 9 := by
  have := cborHead_length_le 3 s.length
  simp only [cborTstr, List.length_append]
  omega

theorem cborBstr_length_le (b : Bytes) : (cborBstr b).length ≤ b.length + 9 := by
  have := cborHead_length_le 2 b.length
  simp only [cborBstr, List.length_append]
  omega

theorem payloadEnc_length_le (iss product id : Bytes) :
    (payloadEnc iss product id).length ≤ iss.length + product.length + id.length + 75 := by
  have h0 := cborHead_length_le 5 [(cborTstr (strBytes "iss"), cborTstr iss),
    (cborTstr (strBytes "product"), cborTstr product),
    (cborTstr (strBytes "id"), cborTstr id)].length
  have h1 := cborTstr_length_le (strBytes "iss")
  have h2 := cborTstr_length_le iss
  have h3 := cborTstr_length_le (strBytes "product")
  have h4 := cborTstr_length_le product
  have h5 := cborTstr_length_le (strBytes "id")
  have h6 := cborTstr_length_le id
  have e1 : (strBytes "iss").length = 3 := by decide
  have e2 : (strBytes "product").length = 7 := by decide
  have e3 : (strBytes "id").length = 2 := by decide
  simp only [payloadEnc, cborMapEnc, List.map_cons, List.map_nil, List.flatten_cons,
    List.flatten_nil, List.length_append, List.append_nil]
  omega

theorem sigStructure_length_le (phRaw pl : Bytes) :
    (sigStructure phRaw pl).length ≤ phRaw.length + pl.length + 60 := by
  have h0 := cborHead_length_le 4 [cborTstr (strBytes "Signature1"), cborBstr phRaw,
    cborBstr ([] : Bytes), cborBstr pl].length
  have h1 := cborTstr_length_le (strBytes "Signature1")
  have h2 := cborBstr_length_le phRaw
  have h3 := cborBstr_length_le ([] : Bytes)
  have h4 := cborBstr_length_le pl
  have e0 : ([] : Bytes).length = 0 := rfl
  have e1 : (strBytes "Signature1").length = 10 := by decide
  simp only [sigStructure, cborArr, List.flatten_cons, List.flatten_nil,
    List.length_append, List.append_nil]
  omega

theorem allBytes_phBytes (a : Int) (hlo : -18446744073709551616 ≤ a)
    (hhi : a < 18446744073709551616) : AllBytes (phBytes a) := by
  have e : phBytes a = cborHead 5 1 ++ (cborInt 1 ++ cborInt a) := by
    simp [phBytes, cborMapEnc]
  rw [e]
  exact allBytes_append (allBytes_cborHead 5 1 (by omega) (by omega))
    (allBytes_append (allBytes_cborInt 1 (by omega) (by omega)) (allBytes_cborInt a hlo hhi))

theorem allBytes_payloadEnc (iss product id : Bytes)
    (hiss : AllBytes iss) (hprod : AllBytes product) (hid : AllBytes id)
    (liss : iss.length < 18446744073709551616)
    (lprod : product.length < 18446744073709551616)
    (lid : id.length < 18446744073709551616) :
    AllBytes (payloadEnc iss product id) := by
  have e : payloadEnc iss product id
      = cborHead 5 3 ++ (cborTstr (strBytes "iss") ++ (cborTstr iss ++
          (cborTstr (strBytes "product") ++ (cborTstr product ++
          (cborTstr (strBytes "id") ++ cborTstr id))))) := by
    simp [payloadEnc, cborMapEnc]
  rw [e]
  refine allBytes_append (allBytes_cborHead 5 3 (by omega) (by omega))
    (allBytes_append (allBytes_cborTstr _ (by decide) (by decide))
      (allBytes_append (allBytes_cborTstr _ hiss liss)
        (allBytes_append (allBytes_cborTstr _ (by decide) (by decide))
          (allBytes_append (allBytes_cborTstr _ hprod lprod)
            (allBytes_append (allBytes_cborTstr _ (by decide) (by decide))
              (allBytes_cborTstr _ hid lid))))))

theorem allBytes_sigStructure (phRaw pl : Bytes)
    (hph : AllBytes phRaw) (hpl : AllBytes pl)
    (lph : phRaw.length < 18446744073709551616)
    (lpl : pl.length < 18446744073709551616) :
    AllBytes (sigStructure phRaw pl) := by
  have e : sigStructure phRaw pl
      = cborHead 4 4 ++ (cborTstr (strBytes "Signature1") ++ (cborBstr phRaw ++
          (cborBstr [] ++ cborBstr pl))) := by
    simp [sigStructure, cborArr]
  rw [e]
  refine allBytes_append (allBytes_cborHead 4 4 (by omega) (by omega))
    (allBytes_append (allBytes_cborTstr _ (by decide) (by decide))
      (allBytes_append (allBytes_cborBstr _ hph lph)
        (allBytes_append (allBytes_cborBstr _ (by simp [AllBytes]) (by simp))
          (allBytes_cborBstr _ hpl lpl))))

theorem allBytes_coseEnvelope (a : Int) (kid pl sig : Bytes)
    (halo : -18446744073709551616 ≤ a) (hahi : a < 18446744073709551616)
    (hkid : AllBytes kid) (hpl : AllBytes pl) (hsig : AllBytes sig)
    (lkid : kid.length < 18446744073709551616)
    (lpl : pl.length < 18446744073709551616)
    (lsig : sig.length < 18446744073709551616) :
    AllBytes (coseEnvelope a kid pl sig) := by
  have hph := allBytes_phBytes a halo hahi
  have lph : (phBytes a).length < 18446744073709551616 := by
    have := phBytes_length_le a
    omega
  have e : coseEnvelope a kid pl sig
      = cborHead 6 18 ++ (cborHead 4 4 ++ (cborBstr (phBytes a) ++
          ((cborHead 5 1 ++ (cborInt 4 ++ cborBstr kid)) ++
            (cborBstr pl ++ cborBstr sig)))) := by
    simp [coseEnvelope, cborTag, cborArr, cborMapEnc]
  rw [e]
  refine allBytes_append (allBytes_cborHead 6 18 (by omega) (by omega))
    (allBytes_append (allBytes_cborHead 4 4 (by omega) (by omega))
      (allBytes_append (allBytes_cborBstr _ hph lph)
        (allBytes_append
          (allBytes_append (allBytes_cborHead 5 1 (by omega) (by omega))
            (allBytes_append (allBytes_cborInt 4 (by omega) (by omega))
              (allBytes_cborBstr _ hkid lkid)))
          (allBytes_append (allBytes_cborBstr _ hpl lpl)
            (allBytes_cborBstr _ hsig lsig)))))

/-! ## Behaviour of the cwt layer on well-formed envelopes -/

theorem cwtDecode_envelope_ok (kid pl sig : Bytes) (key : COSEKey) (v : CborValue)
    (hkey : key.kid = kid) (halg : key.alg = strBytes "RS256")
    (hsig : key.alwaysVerify = true ∨
      sig = symSign key.material (sigStructure (phBytes (-257)) pl))
    (lkid : kid.length < 18446744073709551616)
    (lpl : pl.length < 18446744073709551616)
    (lsig : sig.length < 18446744073709551616)
    (hv : cborDecodeFull pl = some v) :
    cwtDecode (coseEnvelope (-257) kid pl sig) key = .ok v := by
  unfold cwtDecode
  rw [loads_envelope (-257) kid pl sig (by omega) (by omega) lkid lpl lsig]
  dsimp only
  rw [show dictLookupInt [(CborValue.int 4, CborValue.bstr kid)] 4
      = some (CborValue.bstr kid) from rfl]
  dsimp only
  rw [hkey, if_pos rfl]
  unfold cwtDecodeChecked
  dsimp only
  rw [show dictLookupInt [(CborValue.int 1, CborValue.int (-257))] 1
      = some (CborValue.int (-257)) from rfl]
  dsimp only
  rw [halg]
  rw [show algNameToCode (strBytes "RS256") = some (-257) from rfl]
  dsimp only
  rw [if_pos rfl, if_pos hsig, hv]

theorem cwtDecode_envelope_badsig (kid pl sig : Bytes) (key : COSEKey)
    (hkey : key.kid = kid) (halg : key.alg = strBytes "RS256")
    (hsig : ¬(key.alwaysVerify = true ∨
      sig = symSign key.material (sigStructure (phBytes (-257)) pl)))
    (lkid : kid.length < 18446744073709551616)
    (lpl : pl.length < 18446744073709551616)
    (lsig : sig.length < 18446744073709551616) :
    cwtDecode (coseEnvelope (-257) kid pl sig) key
      = .error (.cwtErr "Failed to verify.") := by
  unfold cwtDecode
  rw [loads_envelope (-257) kid pl sig (by omega) (by omega) lkid lpl lsig]
  dsimp only
  rw [show dictLookupInt [(CborValue.int 4, CborValue.bstr kid)] 4
      = some (CborValue.bstr kid) from rfl]
  dsimp only
  rw [hkey, if_pos rfl]
  unfold cwtDecodeChecked
  dsimp only
  rw [show dictLookupInt [(CborValue.int 1, CborValue.int (-257))] 1
      = some (CborValue.int (-257)) from rfl]
  dsimp only
  rw [halg]
  rw [show algNameToCode (strBytes "RS256") = some (-257) from rfl]
  dsimp only
  rw [if_pos rfl, if_neg hsig]

/-! ## Behaviour of the untrusted extractor on well-formed envelopes -/

theorem parse_envelope (kid iss product id sig : Bytes)
    (lkid : kid.length < 4294967296) (liss : iss.length < 4294967296)
    (lprod : product.length < 4294967296) (lid : id.length < 4294967296)
    (lsig : sig.length < 18446744073709551616) :
    cose_parse_insecure (coseEnvelope (-257) kid (payloadEnc iss product id) sig)
      = .ok ⟨⟨iss, product, id⟩, strBytes "RS256", kid⟩ := by
  have lpl : (payloadEnc iss product id).length < 18446744073709551616 := by
    have := payloadEnc_length_le iss product id
    omega
  unfold cose_parse_insecure
  rw [loads_envelope (-257) kid (payloadEnc iss product id) sig (by omega) (by omega)
    (by omega) lpl lsig]
  dsimp only
  rw [show dictLookupInt [(CborValue.int 1, CborValue.int (-257))] 1
      = some (CborValue.int (-257)) from rfl]
  dsimp only
  rw [show ALGS (-257) = some (strBytes "RS256") from rfl]
  dsimp only
  rw [show dictLookupInt [(CborValue.int 4, CborValue.bstr kid)] 4
      = some (CborValue.bstr kid) from rfl]
  dsimp only
  rw [cwtDecode_envelope_ok kid (payloadEnc iss product id) sig
    ⟨kid, strBytes "RS256", DUMMY_MATERIAL, true⟩
    (.map [(.tstr (strBytes "iss"), .tstr iss), (.tstr (strBytes "product"), .tstr product),
           (.tstr (strBytes "id"), .tstr id)])
    rfl rfl (Or.inl rfl) (by omega) lpl lsig
    (full_payloadEnc iss product id (by omega) (by omega) (by omega))]
  dsimp only
  unfold codePayloadOfDict
  rw [show dictLookupTstr [(CborValue.tstr (strBytes "iss"), CborValue.tstr iss),
        (CborValue.tstr (strBytes "product"), CborValue.tstr product),
        (CborValue.tstr (strBytes "id"), CborValue.tstr id)] (strBytes "iss")
      = some (CborValue.tstr iss) from rfl]
  rw [show dictLookupTstr [(CborValue.tstr (strBytes "iss"), CborValue.tstr iss),
        (CborValue.tstr (strBytes "product"), CborValue.tstr product),
        (CborValue.tstr (strBytes "id"), CborValue.tstr id)] (strBytes "product")
      = some (CborValue.tstr product) from rfl]
  rw [show dictLookupTstr [(CborValue.tstr (strBytes "iss"), CborValue.tstr iss),
        (CborValue.tstr (strBytes "product"), CborValue.tstr product),
        (CborValue.tstr (strBytes "id"), CborValue.tstr id)] (strBytes "id")
      = some (CborValue.tstr id) from rfl]

/-! ## The token produced by `make_cose_code` and its verification pipeline -/

theorem make_cose_code_valid (conf : Conf) (ikd product id : Bytes) :
    make_cose_code conf ikd conf.RSA_ISS product id true
      = .ok (strBytes "IT1:" ++ b45encode (coseEnvelope (-257) conf.RSA_KID
          (payloadEnc conf.RSA_ISS product id)
          (symSign conf.RSA_PRIVATE_KEY
            (sigStructure (phBytes (-257)) (payloadEnc conf.RSA_ISS product id))))) := by
  unfold make_cose_code
  rw [if_neg (by simp)]
  show Except.ok (strBytes "IT1:" ++ b45encode (coseEncodeMsg (rsaPrivateKey conf)
    (payloadEnc conf.RSA_ISS product id))) = _
  unfold coseEncodeMsg rsaPrivateKey
  rw [show algNameToCode (strBytes "RS256") = some (-257) from rfl]

theorem make_cose_code_invalid (conf : Conf) (ikd iss product id : Bytes) :
    make_cose_code conf ikd iss product id false
      = .ok (strBytes "IT1:" ++ b45encode (coseEnvelope (-257) conf.RSA_KID
          (payloadEnc iss product id)
          (symSign ikd (sigStructure (phBytes (-257)) (payloadEnc iss product id))))) := by
  unfold make_cose_code
  rw [if_neg (by simp)]
  show Except.ok (strBytes "IT1:" ++ b45encode (coseEncodeMsg
    (invalidPrivateKey conf ikd) (payloadEnc iss product id))) = _
  unfold coseEncodeMsg invalidPrivateKey
  rw [show algNameToCode (strBytes "RS256") = some (-257) from rfl]

theorem verify_code_on_token (env : FetchEnv) (kid mat iss product id : Bytes)
    (hkid : StrOk kid) (hmat : StrOk mat) (hiss : StrOk iss)
    (hprod : StrOk product) (hid : StrOk id) :
    verify_code env (strBytes "IT1:" ++ b45encode (coseEnvelope (-257) kid
        (payloadEnc iss product id)
        (symSign mat (sigStructure (phBytes (-257)) (payloadEnc iss product id)))))
      = verify_code_trust env
          (coseEnvelope (-257) kid (payloadEnc iss product id)
            (symSign mat (sigStructure (phBytes (-257)) (payloadEnc iss product id))))
          ⟨⟨iss, product, id⟩, strBytes "RS256", kid⟩ := by
  obtain ⟨lkid, hkidB⟩ := hkid
  obtain ⟨lmat, hmatB⟩ := hmat
  obtain ⟨liss, hissB⟩ := hiss
  obtain ⟨lprod, hprodB⟩ := hprod
  obtain ⟨lid, hidB⟩ := hid
  have lpl : (payloadEnc iss product id).length < 18446744073709551616 := by
    have := payloadEnc_length_le iss product id
    omega
  have hplB : AllBytes (payloadEnc iss product id) :=
    allBytes_payloadEnc iss product id hissB hprodB hidB (by omega) (by omega) (by omega)
  have lple := payloadEnc_length_le iss product id
  have lsigS : (sigStructure (phBytes (-257)) (payloadEnc iss product id)).length
      < 18446744073709551616 := by
    have h1 := sigStructure_length_le (phBytes (-257)) (payloadEnc iss product id)
    have h2 := phBytes_length_le (-257)
    omega
  have lsig : (symSign mat (sigStructure (phBytes (-257))
      (payloadEnc iss product id))).length < 18446744073709551616 := by
    rw [symSign_length]
    have h1 := sigStructure_length_le (phBytes (-257)) (payloadEnc iss product id)
    have h2 := phBytes_length_le (-257)
    omega
  have hsigB : AllBytes (symSign mat (sigStructure (phBytes (-257))
      (payloadEnc iss product id))) :=
    allBytes_symSign _ _ hmatB
      (allBytes_sigStructure _ _ (allBytes_phBytes (-257) (by omega) (by omega)) hplB
        (by have := phBytes_length_le (-257); omega) lpl)
  rw [verify_code.eq_def]
  rw [ioxio_on_token _ (allBytes_coseEnvelope (-257) _ _ _ (by omega) (by omega)
    hkidB hplB hsigB (by omega) lpl lsig)]
  dsimp only
  rw [parse_envelope kid iss product id _ lkid liss lprod lid lsig]

theorem verify_code_trust_verifies (env : FetchEnv) (cose_bytes : Bytes)
    (basics : CodeBasics) (ppJson jwksJson : Json) (pp : ProductPassport)
    (ks : List Json) (jwk : Json) (key : COSEKey) (v : CborValue)
    (h1 : env.fetch (get_product_passport_uri basics.payload.iss) = .ok ppJson)
    (h2 : productPassportOfJson ppJson = some pp)
    (h3 : env.fetch pp.jwks_uri = .ok jwksJson)
    (h4 : jwksKeys jwksJson = .ok ks)
    (h5 : findKey ks basics.kid basics.alg = .ok (some jwk))
    (h6 : coseKeyFromJwk jwk = .ok key)
    (h7 : cwtDecode cose_bytes key = .ok v) :
    verify_code_trust env cose_bytes basics = .ok () := by
  unfold verify_code_trust
  rw [h1]
  dsimp only
  rw [h2]
  dsimp only
  rw [h3]
  dsimp only
  rw [h4]
  dsimp only
  rw [h5]
  dsimp only
  rw [h6]
  dsimp only
  unfold cose_verify
  rw [h7]

/-! ## Injectivity of the symbolic signature in the key material -/

theorem unary_prefix_inj : ∀ (n1 n2 : Nat) (a b : Bytes),
    List.replicate n1 1 ++ 0 :: a = List.replicate n2 1 ++ 0 :: b → n1 = n2 ∧ a = b
  | 0, 0, a, b, h => by
    simp only [List.replicate, List.nil_append, List.cons.injEq] at h
    exact ⟨rfl, h.2⟩
  | 0, n2 + 1, a, b, h => by
    simp [List.replicate_succ] at h
  | n1 + 1, 0, a, b, h => by
    simp [List.replicate_succ] at h
  | n1 + 1, n2 + 1, a, b, h => by
    simp only [List.replicate_succ, List.cons_append, List.cons.injEq] at h
    obtain ⟨he, hr⟩ := unary_prefix_inj n1 n2 a b h.2
    exact ⟨by omega, hr⟩

theorem symSign_inj_material (m1 m2 d : Bytes) (h : symSign m1 d = symSign m2 d) :
    m1 = m2 := by
  unfold symSign at h
  rw [List.append_assoc, List.append_assoc] at h
  have h2 : List.replicate m1.length 1 ++ 0 :: (m1 ++ d)
      = List.replicate m2.length 1 ++ 0 :: (m2 ++ d) := h
  obtain ⟨hlen, happ⟩ := unary_prefix_inj m1.length m2.length (m1 ++ d) (m2 ++ d) h2
  exact List.append_cancel_right happ

/-! ## Key selection: first exact match semantics -/

theorem findKey_wellformed : ∀ (ks : List Json) (kid alg : Bytes),
    ks.all jwkShaped = true →
    findKey ks kid alg = .ok (ks.find? (fun j => jwkMatches j kid alg))
  | [], _, _, _ => rfl
  | j :: t, kid, alg, h => by
    simp only [List.all_cons, Bool.and_eq_true] at h
    obtain ⟨hj, ht⟩ := h
    have iht := findKey_wellformed t kid alg ht
    cases j with
    | str s => simp [jwkShaped] at hj
    | num n => simp [jwkShaped] at hj
    | arr xs => simp [jwkShaped] at hj
    | obj fields =>
      simp only [jwkShaped, Bool.and_eq_true] at hj
      obtain ⟨h1, h2⟩ := hj
      cases hk : jlookup fields (strBytes "kid") with
      | none => rw [hk] at h1; simp at h1
      | some kv =>
        cases kv with
        | num m => rw [hk] at h1; simp at h1
        | obj f2 => rw [hk] at h1; simp at h1
        | arr a2 => rw [hk] at h1; simp at h1
        | str s =>
          cases ha : jlookup fields (strBytes "alg") with
          | none => rw [ha] at h2; simp at h2
          | some av =>
            cases av with
            | num m => rw [ha] at h2; simp at h2
            | obj f2 => rw [ha] at h2; simp at h2
            | arr a2 => rw [ha] at h2; simp at h2
            | str a2 =>
              have hm : jwkMatches (.obj fields) kid alg
                  = (decide (s = kid) && decide (a2 = alg)) := by
                simp [jwkMatches, hk, ha]
              simp only [findKey, hk, ha, List.find?_cons, hm]
              by_cases hs : s = kid
              · by_cases ha2 : a2 = alg
                · simp [hs, ha2]
                · simp [hs, ha2, iht]
              · simp [hs, iht]

theorem jwkMatches_false_of_alg (j : Json) (kid : Bytes)
    (h : jwkAlgField j ≠ some (strBytes "RS256")) :
    jwkMatches j kid (strBytes "RS256") = false := by
  cases j with
  | str s => rfl
  | num n => rfl
  | arr xs => rfl
  | obj fields =>
    simp only [jwkMatches]
    cases ha : jlookup fields (strBytes "alg") with
    | none => simp
    | some av =>
      cases av with
      | num m => simp
      | obj f2 => simp
      | arr a2 => simp
      | str a2 =>
        have : a2 ≠ strBytes "RS256" := by
          intro hcon
          apply h
          simp [jwkAlgField, ha, hcon]
        simp [this]

/-! ## Trust-resolution failure paths -/

theorem verify_code_trust_issuer_unreachable (env : FetchEnv) (cose_bytes : Bytes)
    (basics : CodeBasics)
    (h1 : env.fetch (get_product_passport_uri basics.payload.iss) = .error ()) :
    verify_code_trust env cose_bytes basics = .error issuerUnreachableError := by
  unfold verify_code_trust
  rw [h1]

theorem verify_code_trust_pp_invalid (env : FetchEnv) (cose_bytes : Bytes)
    (basics : CodeBasics) (ppJson : Json)
    (h1 : env.fetch (get_product_passport_uri basics.payload.iss) = .ok ppJson)
    (h2 : productPassportOfJson ppJson = none) :
    verify_code_trust env cose_bytes basics = .error .validation := by
  unfold verify_code_trust
  rw [h1]
  dsimp only
  rw [h2]

theorem verify_code_trust_keyset_unreachable (env : FetchEnv) (cose_bytes : Bytes)
    (basics : CodeBasics) (ppJson : Json) (pp : ProductPassport)
    (h1 : env.fetch (get_product_passport_uri basics.payload.iss) = .ok ppJson)
    (h2 : productPassportOfJson ppJson = some pp)
    (h3 : env.fetch pp.jwks_uri = .error ()) :
    verify_code_trust env cose_bytes basics = .error keySetUnreachableError := by
  unfold verify_code_trust
  rw [h1]
  dsimp only
  rw [h2]
  dsimp only
  rw [h3]

theorem verify_code_trust_nomatch (env : FetchEnv) (cose_bytes : Bytes)
    (basics : CodeBasics) (ppJson jwksJson : Json) (pp : ProductPassport) (ks : List Json)
    (h1 : env.fetch (get_product_passport_uri basics.payload.iss) = .ok ppJson)
    (h2 : productPassportOfJson ppJson = some pp)
    (h3 : env.fetch pp.jwks_uri = .ok jwksJson)
    (h4 : jwksKeys jwksJson = .ok ks)
    (h5 : findKey ks basics.kid basics.alg = .ok none) :
    verify_code_trust env cose_bytes basics = .error noMatchingKeyError := by
  unfold verify_code_trust
  rw [h1]
  dsimp only
  rw [h2]
  dsimp only
  rw [h3]
  dsimp only
  rw [h4]
  dsimp only
  rw [h5]

theorem verify_code_trust_sigfail (env : FetchEnv) (cose_bytes : Bytes)
    (basics : CodeBasics) (ppJson jwksJson : Json) (pp : ProductPassport)
    (ks : List Json) (jwk : Json) (key : COSEKey) (m : String)
    (h1 : env.fetch (get_product_passport_uri basics.payload.iss) = .ok ppJson)
    (h2 : productPassportOfJson ppJson = some pp)
    (h3 : env.fetch pp.jwks_uri = .ok jwksJson)
    (h4 : jwksKeys jwksJson = .ok ks)
    (h5 : findKey ks basics.kid basics.alg = .ok (some jwk))
    (h6 : coseKeyFromJwk jwk = .ok key)
    (h7 : cwtDecode cose_bytes key = .error (.cwtErr m)) :
    verify_code_trust env cose_bytes basics = .error signatureInvalidError := by
  unfold verify_code_trust
  rw [h1]
  dsimp only
  rw [h2]
  dsimp only
  rw [h3]
  dsimp only
  rw [h4]
  dsimp only
  rw [h5]
  dsimp only
  rw [h6]
  dsimp only
  unfold cose_verify
  rw [h7]

theorem verify_on_token (env : FetchEnv) (kid mat iss product id : Bytes)
    (hkid : StrOk kid) (hmat : StrOk mat) (hiss : StrOk iss)
    (hprod : StrOk product) (hid : StrOk id)
    (htrust : verify_code_trust env (coseEnvelope (-257) kid (payloadEnc iss product id)
        (symSign mat (sigStructure (phBytes (-257)) (payloadEnc iss product id))))
        ⟨⟨iss, product, id⟩, strBytes "RS256", kid⟩ = .ok ()) :
    verify env (strBytes "IT1:" ++ b45encode (coseEnvelope (-257) kid
        (payloadEnc iss product id)
        (symSign mat (sigStructure (phBytes (-257)) (payloadEnc iss product id)))))
      = .ok ⟨iss, product, id⟩ := by
  obtain ⟨lkid, hkidB⟩ := hkid
  obtain ⟨lmat, hmatB⟩ := hmat
  obtain ⟨liss, hissB⟩ := hiss
  obtain ⟨lprod, hprodB⟩ := hprod
  obtain ⟨lid, hidB⟩ := hid
  have lple := payloadEnc_length_le iss product id
  have lpl : (payloadEnc iss product id).length < 18446744073709551616 := by omega
  have hplB : AllBytes (payloadEnc iss product id) :=
    allBytes_payloadEnc iss product id hissB hprodB hidB (by omega) (by omega) (by omega)
  have lsig : (symSign mat (sigStructure (phBytes (-257))
      (payloadEnc iss product id))).length < 18446744073709551616 := by
    rw [symSign_length]
    have h1 := sigStructure_length_le (phBytes (-257)) (payloadEnc iss product id)
    have h2 := phBytes_length_le (-257)
    omega
  have hsigB : AllBytes (symSign mat (sigStructure (phBytes (-257))
      (payloadEnc iss product id))) :=
    allBytes_symSign _ _ hmatB
      (allBytes_sigStructure _ _ (allBytes_phBytes (-257) (by omega) (by omega)) hplB
        (by have := phBytes_length_le (-257); omega) lpl)
  rw [verify.eq_def]
  rw [ioxio_on_token _ (allBytes_coseEnvelope (-257) _ _ _ (by omega) (by omega)
    hkidB hplB hsigB (by omega) lpl lsig)]
  dsimp only
  rw [parse_envelope kid iss product id _ lkid liss lprod lid lsig]
  dsimp only
  rw [htrust]

/-! ## The claims -/

/-- C2: Codec round-trip: for every byte string b, decoding the wire text built
as the fixed version marker `IT1:` followed by the Base45 encoding of b returns
exactly b: `ioxio_tag_str_to_cose_bytes (strBytes "IT1:" ++ b45encode b) = b`. -/
theorem c2_codec_round_trip (b : Bytes) (hb : AllBytes b) :
    ioxio_tag_str_to_cose_bytes (strBytes "IT1:" ++ b45encode b) = .ok b :=
  ioxio_on_token b hb

theorem c2_codec_round_trip_witness :
    AllBytes [0, 1, 77, 255, 128] ∧
      ioxio_tag_str_to_cose_bytes (strBytes "IT1:" ++ b45encode [0, 1, 77, 255, 128])
        = .ok [0, 1, 77, 255, 128] :=
  ⟨by decide, c2_codec_round_trip [0, 1, 77, 255, 128] (by decide)⟩

/-- C3: Version gate: every input whose text does not start with `IT1:` fails
with the BadVersion `TagsError` (raised at tag.py:89 before any Base45
decoding is attempted — the result does not depend on the rest of the input),
and this error is distinct from the BadEncoding `TagsError` raised for invalid
Base45 content (the two `TagsError` values differ in their `error` message;
both carry the `code` string `signature_verification_failed`). -/
theorem c3_version_gate (code : Bytes) (h : code.take 4 ≠ strBytes "IT1:") :
    ioxio_tag_str_to_cose_bytes code = .error badVersionError ∧
      badVersionError ≠ badEncodingError := by
  refine ⟨?_, by decide⟩
  unfold ioxio_tag_str_to_cose_bytes
  rw [if_neg h]

theorem c3_version_gate_witness :
    (strBytes "HC1:NCFText").take 4 ≠ strBytes "IT1:" ∧
      (ioxio_tag_str_to_cose_bytes (strBytes "HC1:NCFText") = .error badVersionError ∧
        badVersionError ≠ badEncodingError) :=
  ⟨by decide, c3_version_gate (strBytes "HC1:NCFText") (by decide)⟩

/-- C4 (amended): for every structurally well-formed envelope whose
protected-header algorithm id is a numeric code other than -257 (the only
entry of the `ALGS` table), the untrusted extractor raises an uncaught
`KeyError` — the dict lookup miss `ALGS[msg.protected[1]]` at tag.py:110,
i.e. a crash — and not any typed failure. -/
theorem c4_unsupported_alg_keyerror (a : Int) (kid pl sig : Bytes) (ha : a ≠ -257)
    (halo : -18446744073709551616 ≤ a) (hahi : a < 18446744073709551616)
    (lkid : kid.length < 18446744073709551616)
    (lpl : pl.length < 18446744073709551616)
    (lsig : sig.length < 18446744073709551616) :
    cose_parse_insecure (coseEnvelope a kid pl sig) = .error .keyError ∧
      isTypedFailure .keyError = false := by
  refine ⟨?_, rfl⟩
  unfold cose_parse_insecure
  rw [loads_envelope a kid pl sig halo hahi lkid lpl lsig]
  dsimp only
  rw [show dictLookupInt [(CborValue.int 1, CborValue.int a)] 1
      = some (CborValue.int a) from rfl]
  dsimp only
  unfold ALGS
  rw [if_neg ha]

theorem c4_unsupported_alg_keyerror_witness :
    cose_parse_insecure (coseEnvelope (-8) (strBytes "key-2")
        (payloadEnc (strBytes "b.example") (strBytes "gadget") (strBytes "p2")) [4, 5])
      = .error .keyError ∧
    isTypedFailure .keyError = false :=
  c4_unsupported_alg_keyerror (-8) (strBytes "key-2")
    (payloadEnc (strBytes "b.example") (strBytes "gadget") (strBytes "p2")) [4, 5]
    (by decide) (by decide) (by decide) (by decide) (by decide) (by decide)

/-- C4 counterexample: a concrete well-formed envelope whose algorithm id is
-7 (ES256, absent from `ALGS`): `cose_parse_insecure` raises the untyped
`KeyError` crash, refuting the claim that an unrecognized code surfaces as a
typed `UnsupportedAlgorithm` failure and never as a crash. -/
theorem c4_counterexample :
    cose_parse_insecure (coseEnvelope (-7) (strBytes "key-1")
        (payloadEnc (strBytes "a.example") (strBytes "widget") (strBytes "p1"))
        [1, 2, 3])
      = .error .keyError ∧
    isTypedFailure .keyError = false := by
  refine ⟨?_, rfl⟩
  rfl

/-- C8: Issuer/key mismatch at signing: on the production (`valid = true`)
path, a payload issuer differing from the signing key's declared issuer
`conf.RSA_ISS` is rejected with the typed `CannotSignInvalidIssuer` error at
tag.py:275-276, before the payload is encoded or anything is signed, and no
token is produced. -/
theorem c8_issuer_key_mismatch (conf : Conf) (invalidKeyData iss product id : Bytes)
    (h : iss ≠ conf.RSA_ISS) :
    make_cose_code conf invalidKeyData iss product id true
      = .error .cannotSignInvalidIssuer := by
  unfold make_cose_code
  rw [if_pos ⟨rfl, h⟩]

theorem c8_issuer_key_mismatch_witness :
    strBytes "a.example" ≠ (Conf.mk (strBytes "b.example") (strBytes "key-1")
        (strBytes "KEYMAT")).RSA_ISS ∧
      make_cose_code (Conf.mk (strBytes "b.example") (strBytes "key-1")
          (strBytes "KEYMAT")) (strBytes "INVALIDKEY") (strBytes "a.example")
          (strBytes "widget") (strBytes "p1") true
        = .error .cannotSignInvalidIssuer :=
  ⟨by decide, c8_issuer_key_mismatch (Conf.mk (strBytes "b.example")
    (strBytes "key-1") (strBytes "KEYMAT")) (strBytes "INVALIDKEY")
    (strBytes "a.example") (strBytes "widget") (strBytes "p1") (by decide)⟩

/-- C9: Untrusted extraction is signature-independent: two structurally
well-formed envelopes that differ only in their signature bytes both parse
successfully and yield the same (alg, kid, payload) triple — the dummy key's
overridden `verify` (tag.py:120) means the signature is never evaluated. -/
theorem c9_signature_independent (kid iss product id sig1 sig2 : Bytes)
    (lkid : kid.length < 4294967296) (liss : iss.length < 4294967296)
    (lprod : product.length < 4294967296) (lid : id.length < 4294967296)
    (lsig1 : sig1.length < 18446744073709551616)
    (lsig2 : sig2.length < 18446744073709551616) :
    cose_parse_insecure (coseEnvelope (-257) kid (payloadEnc iss product id) sig1)
        = .ok ⟨⟨iss, product, id⟩, strBytes "RS256", kid⟩ ∧
      cose_parse_insecure (coseEnvelope (-257) kid (payloadEnc iss product id) sig2)
        = .ok ⟨⟨iss, product, id⟩, strBytes "RS256", kid⟩ :=
  ⟨parse_envelope kid iss product id sig1 lkid liss lprod lid lsig1,
   parse_envelope kid iss product id sig2 lkid liss lprod lid lsig2⟩

theorem c9_signature_independent_witness :
    cose_parse_insecure (coseEnvelope (-257) (strBytes "key-1")
        (payloadEnc (strBytes "a.example") (strBytes "widget") (strBytes "p1"))
        [7, 7, 7])
        = .ok ⟨⟨strBytes "a.example", strBytes "widget", strBytes "p1"⟩,
               strBytes "RS256", strBytes "key-1"⟩ ∧
      cose_parse_insecure (coseEnvelope (-257) (strBytes "key-1")
        (payloadEnc (strBytes "a.example") (strBytes "widget") (strBytes "p1"))
        [250])
        = .ok ⟨⟨strBytes "a.example", strBytes "widget", strBytes "p1"⟩,
               strBytes "RS256", strBytes "key-1"⟩ :=
  c9_signature_independent (strBytes "key-1") (strBytes "a.example")
    (strBytes "widget") (strBytes "p1") [7, 7, 7] [250]
    (by decide) (by decide) (by decide) (by decide) (by decide) (by decide)

/-- C5 (amended): during trust resolution, transport failures (`HTTPError`)
are translated to the typed failures: a transport failure fetching the issuer
descriptor yields the IssuerUnreachable `TagsError` and a transport failure
fetching the key-set yields the KeySetUnreachable `TagsError`.  (Shape/parse
failures of the fetched documents are NOT so translated — see the
counterexample: a descriptor that is valid JSON but fails `ProductPassport`
validation raises an uncaught pydantic `ValidationError`.) -/
theorem c5_transport_failures_typed (env : FetchEnv) (kid mat iss product id : Bytes)
    (hkid : StrOk kid) (hmat : StrOk mat) (hiss : StrOk iss)
    (hprod : StrOk product) (hid : StrOk id) :
    (env.fetch (get_product_passport_uri iss) = .error () →
      verify_code env (strBytes "IT1:" ++ b45encode (coseEnvelope (-257) kid
          (payloadEnc iss product id)
          (symSign mat (sigStructure (phBytes (-257)) (payloadEnc iss product id)))))
        = .error issuerUnreachableError) ∧
    (∀ ppJson pp, env.fetch (get_product_passport_uri iss) = .ok ppJson →
      productPassportOfJson ppJson = some pp →
      env.fetch pp.jwks_uri = .error () →
      verify_code env (strBytes "IT1:" ++ b45encode (coseEnvelope (-257) kid
          (payloadEnc iss product id)
          (symSign mat (sigStructure (phBytes (-257)) (payloadEnc iss product id)))))
        = .error keySetUnreachableError) := by
  constructor
  · intro h1
    rw [verify_code_on_token env kid mat iss product id hkid hmat hiss hprod hid]
    exact verify_code_trust_issuer_unreachable env _ _ h1
  · intro ppJson pp h1 h2 h3
    rw [verify_code_on_token env kid mat iss product id hkid hmat hiss hprod hid]
    exact verify_code_trust_keyset_unreachable env _ _ ppJson pp h1 h2 h3

theorem c5_transport_failures_typed_witness :
    verify_code (FetchEnv.mk (fun _ => .error ()))
        (strBytes "IT1:" ++ b45encode (coseEnvelope (-257) (strBytes "key-1")
          (payloadEnc (strBytes "a.example") (strBytes "widget") (strBytes "p1"))
          (symSign (strBytes "KEYMAT") (sigStructure (phBytes (-257))
            (payloadEnc (strBytes "a.example") (strBytes "widget") (strBytes "p1"))))))
      = .error issuerUnreachableError ∧
    verify_code (FetchEnv.mk (fun uri =>
        if uri = get_product_passport_uri (strBytes "a.example") then
          .ok (Json.obj [(strBytes "jwks_uri", .str (strBytes "https://a.example/jwks.json")),
                         (strBytes "logo_url", .str (strBytes "https://a.example/logo.png")),
                         (strBytes "product_dataspace", .str (strBytes "ds.example"))])
        else .error ()))
        (strBytes "IT1:" ++ b45encode (coseEnvelope (-257) (strBytes "key-1")
          (payloadEnc (strBytes "a.example") (strBytes "widget") (strBytes "p1"))
          (symSign (strBytes "KEYMAT") (sigStructure (phBytes (-257))
            (payloadEnc (strBytes "a.example") (strBytes "widget") (strBytes "p1"))))))
      = .error keySetUnreachableError :=
  ⟨(c5_transport_failures_typed (FetchEnv.mk (fun _ => .error ()))
      (strBytes "key-1") (strBytes "KEYMAT") (strBytes "a.example")
      (strBytes "widget") (strBytes "p1")
      (by decide) (by decide) (by decide) (by decide) (by decide)).1 rfl,
   (c5_transport_failures_typed (FetchEnv.mk (fun uri =>
        if uri = get_product_passport_uri (strBytes "a.example") then
          .ok (Json.obj [(strBytes "jwks_uri", .str (strBytes "https://a.example/jwks.json")),
                         (strBytes "logo_url", .str (strBytes "https://a.example/logo.png")),
                         (strBytes "product_dataspace", .str (strBytes "ds.example"))])
        else .error ()))
      (strBytes "key-1") (strBytes "KEYMAT") (strBytes "a.example")
      (strBytes "widget") (strBytes "p1")
      (by decide) (by decide) (by decide) (by decide) (by decide)).2
      (Json.obj [(strBytes "jwks_uri", .str (strBytes "https://a.example/jwks.json")),
                 (strBytes "logo_url", .str (strBytes "https://a.example/logo.png")),
                 (strBytes "product_dataspace", .str (strBytes "ds.example"))])
      (ProductPassport.mk (strBytes "https://a.example/jwks.json")
        (strBytes "https://a.example/logo.png") (strBytes "ds.example"))
      rfl rfl rfl⟩

/-- C5 counterexample: an issuer-descriptor fetch that SUCCEEDS at the
transport level but returns a JSON document failing `ProductPassport`
validation makes `verify_code` raise an untyped pydantic `ValidationError`
(a crash: tag.py:147-153 catches only `HTTPError`), not the
IssuerUnreachable `TagsError` — refuting the claim that every transport OR
PARSE failure of the descriptor yields the IssuerUnreachable typed failure. -/
theorem c5_counterexample :
    verify_code (FetchEnv.mk (fun _ => .ok (Json.obj [])))
        (strBytes "IT1:" ++ b45encode (coseEnvelope (-257) (strBytes "key-1")
          (payloadEnc (strBytes "a.example") (strBytes "widget") (strBytes "p1"))
          (symSign (strBytes "KEYMAT") (sigStructure (phBytes (-257))
            (payloadEnc (strBytes "a.example") (strBytes "widget") (strBytes "p1"))))))
      = .error .validation ∧
    Exc.validation ≠ issuerUnreachableError ∧ isTypedFailure .validation = false := by
  refine ⟨?_, by decide, rfl⟩
  rw [verify_code_on_token _ (strBytes "key-1") (strBytes "KEYMAT")
    (strBytes "a.example") (strBytes "widget") (strBytes "p1")
    (by decide) (by decide) (by decide) (by decide) (by decide)]
  exact verify_code_trust_pp_invalid _ _ _ (Json.obj []) rfl rfl

/-- C6: Key selection: under the KeySet data model (every entry carries string
`kid` and `alg` fields), `verify_code`'s selection expression is the FIRST key
whose kid and alg both exactly equal the extracted hints (`List.find?` with
exact equality on both fields — no fallback, no partial match), and when no
key matches, verification fails with the NoMatchingKey `TagsError`
(`invalid_signature_jwks_invalid_key`, raised from `StopIteration` at
tag.py:170-174). -/
theorem c6_key_selection (env : FetchEnv) (kid mat iss product id : Bytes)
    (ppJson jwksJson : Json) (pp : ProductPassport) (ks : List Json)
    (hkid : StrOk kid) (hmat : StrOk mat) (hiss : StrOk iss)
    (hprod : StrOk product) (hid : StrOk id)
    (hshape : ks.all jwkShaped = true)
    (h1 : env.fetch (get_product_passport_uri iss) = .ok ppJson)
    (h2 : productPassportOfJson ppJson = some pp)
    (h3 : env.fetch pp.jwks_uri = .ok jwksJson)
    (h4 : jwksKeys jwksJson = .ok ks) :
    (∀ alg, findKey ks kid alg = .ok (ks.find? (fun j => jwkMatches j kid alg))) ∧
    (ks.find? (fun j => jwkMatches j kid (strBytes "RS256")) = none →
      verify_code env (strBytes "IT1:" ++ b45encode (coseEnvelope (-257) kid
          (payloadEnc iss product id)
          (symSign mat (sigStructure (phBytes (-257)) (payloadEnc iss product id)))))
        = .error noMatchingKeyError) := by
  constructor
  · intro alg
    exact findKey_wellformed ks kid alg hshape
  · intro hnone
    rw [verify_code_on_token env kid mat iss product id hkid hmat hiss hprod hid]
    refine verify_code_trust_nomatch env _ _ ppJson jwksJson pp ks h1 h2 h3 h4 ?_
    rw [findKey_wellformed ks kid _ hshape, hnone]

theorem c6_key_selection_witness :
    findKey [Json.obj [(strBytes "kid", .str (strBytes "other-kid")),
                       (strBytes "alg", .str (strBytes "RS256"))]]
        (strBytes "key-1") (strBytes "RS256")
      = .ok ([Json.obj [(strBytes "kid", .str (strBytes "other-kid")),
                        (strBytes "alg", .str (strBytes "RS256"))]].find?
          (fun j => jwkMatches j (strBytes "key-1") (strBytes "RS256"))) ∧
    verify_code (FetchEnv.mk (fun uri =>
        if uri = get_product_passport_uri (strBytes "a.example") then
          .ok (Json.obj [(strBytes "jwks_uri", .str (strBytes "https://a.example/jwks.json")),
                         (strBytes "logo_url", .str (strBytes "https://a.example/logo.png")),
                         (strBytes "product_dataspace", .str (strBytes "ds.example"))])
        else if uri = strBytes "https://a.example/jwks.json" then
          .ok (Json.obj [(strBytes "keys",
            .arr [Json.obj [(strBytes "kid", .str (strBytes "other-kid")),
                            (strBytes "alg", .str (strBytes "RS256"))]])])
        else .error ()))
        (strBytes "IT1:" ++ b45encode (coseEnvelope (-257) (strBytes "key-1")
          (payloadEnc (strBytes "a.example") (strBytes "widget") (strBytes "p1"))
          (symSign (strBytes "KEYMAT") (sigStructure (phBytes (-257))
            (payloadEnc (strBytes "a.example") (strBytes "widget") (strBytes "p1"))))))
      = .error noMatchingKeyError :=
  ⟨(c6_key_selection (FetchEnv.mk (fun uri =>
        if uri = get_product_passport_uri (strBytes "a.example") then
          .ok (Json.obj [(strBytes "jwks_uri", .str (strBytes "https://a.example/jwks.json")),
                         (strBytes "logo_url", .str (strBytes "https://a.example/logo.png")),
                         (strBytes "product_dataspace", .str (strBytes "ds.example"))])
        else if uri = strBytes "https://a.example/jwks.json" then
          .ok (Json.obj [(strBytes "keys",
            .arr [Json.obj [(strBytes "kid", .str (strBytes "other-kid")),
                            (strBytes "alg", .str (strBytes "RS256"))]])])
        else .error ()))
      (strBytes "key-1") (strBytes "KEYMAT") (strBytes "a.example")
      (strBytes "widget") (strBytes "p1")
      (Json.obj [(strBytes "jwks_uri", .str (strBytes "https://a.example/jwks.json")),
                 (strBytes "logo_url", .str (strBytes "https://a.example/logo.png")),
                 (strBytes "product_dataspace", .str (strBytes "ds.example"))])
      (Json.obj [(strBytes "keys",
        .arr [Json.obj [(strBytes "kid", .str (strBytes "other-kid")),
                        (strBytes "alg", .str (strBytes "RS256"))]])])
      (ProductPassport.mk (strBytes "https://a.example/jwks.json")
        (strBytes "https://a.example/logo.png") (strBytes "ds.example"))
      [Json.obj [(strBytes "kid", .str (strBytes "other-kid")),
                 (strBytes "alg", .str (strBytes "RS256"))]]
      (by decide) (by decide) (by decide) (by decide) (by decide)
      (by decide) rfl rfl rfl rfl).1 (strBytes "RS256"),
   (c6_key_selection (FetchEnv.mk (fun uri =>
        if uri = get_product_passport_uri (strBytes "a.example") then
          .ok (Json.obj [(strBytes "jwks_uri", .str (strBytes "https://a.example/jwks.json")),
                         (strBytes "logo_url", .str (strBytes "https://a.example/logo.png")),
                         (strBytes "product_dataspace", .str (strBytes "ds.example"))])
        else if uri = strBytes "https://a.example/jwks.json" then
          .ok (Json.obj [(strBytes "keys",
            .arr [Json.obj [(strBytes "kid", .str (strBytes "other-kid")),
                            (strBytes "alg", .str (strBytes "RS256"))]])])
        else .error ()))
      (strBytes "key-1") (strBytes "KEYMAT") (strBytes "a.example")
      (strBytes "widget") (strBytes "p1")
      (Json.obj [(strBytes "jwks_uri", .str (strBytes "https://a.example/jwks.json")),
                 (strBytes "logo_url", .str (strBytes "https://a.example/logo.png")),
                 (strBytes "product_dataspace", .str (strBytes "ds.example"))])
      (Json.obj [(strBytes "keys",
        .arr [Json.obj [(strBytes "kid", .str (strBytes "other-kid")),
                        (strBytes "alg", .str (strBytes "RS256"))]])])
      (ProductPassport.mk (strBytes "https://a.example/jwks.json")
        (strBytes "https://a.example/logo.png") (strBytes "ds.example"))
      [Json.obj [(strBytes "kid", .str (strBytes "other-kid")),
                 (strBytes "alg", .str (strBytes "RS256"))]]
      (by decide) (by decide) (by decide) (by decide) (by decide)
      (by decide) rfl rfl rfl rfl).2 rfl⟩

/-- C7 (amended): algorithm confusion is prevented at key selection, not by a
distinct failure kind: a key whose declared alg differs from the envelope's
algorithm is never selected (selection requires exact equality on BOTH kid and
alg), so when no key of the key-set declares the envelope's algorithm,
verification fails with the NoMatchingKey `TagsError`
(`invalid_signature_jwks_invalid_key`) — the code has no separate
AlgorithmMismatch kind, and the mismatched key is never used for
verification even if the signature would validate against it. -/
theorem c7_alg_confusion_nomatch (env : FetchEnv) (kid mat iss product id : Bytes)
    (ppJson jwksJson : Json) (pp : ProductPassport) (ks : List Json)
    (hkid : StrOk kid) (hmat : StrOk mat) (hiss : StrOk iss)
    (hprod : StrOk product) (hid : StrOk id)
    (hshape : ks.all jwkShaped = true)
    (halg : ∀ j ∈ ks, jwkAlgField j ≠ some (strBytes "RS256"))
    (h1 : env.fetch (get_product_passport_uri iss) = .ok ppJson)
    (h2 : productPassportOfJson ppJson = some pp)
    (h3 : env.fetch pp.jwks_uri = .ok jwksJson)
    (h4 : jwksKeys jwksJson = .ok ks) :
    verify_code env (strBytes "IT1:" ++ b45encode (coseEnvelope (-257) kid
        (payloadEnc iss product id)
        (symSign mat (sigStructure (phBytes (-257)) (payloadEnc iss product id)))))
      = .error noMatchingKeyError ∧
    noMatchingKeyError ≠ signatureInvalidError := by
  refine ⟨?_, by decide⟩
  rw [verify_code_on_token env kid mat iss product id hkid hmat hiss hprod hid]
  refine verify_code_trust_nomatch env _ _ ppJson jwksJson pp ks h1 h2 h3 h4 ?_
  rw [findKey_wellformed ks kid _ hshape]
  have hnone : ks.find? (fun j => jwkMatches j kid (strBytes "RS256")) = none := by
    apply List.find?_eq_none.mpr
    intro j hj
    rw [jwkMatches_false_of_alg j kid (halg j hj)]
    simp
  rw [hnone]

/-- C7 counterexample: a token with envelope algorithm RS256 and kid `key-1`,
signed with material `KEYMAT`, verified against a key-set whose only key has
the SAME kid and the SAME material but declared algorithm ES256 (so the
signature bytes would validate against that key pair): the failure is the
NoMatchingKey `TagsError` — not a failure kind distinct from NoMatchingKey as
the claim requires. -/
theorem c7_counterexample :
    verify_code (FetchEnv.mk (fun uri =>
        if uri = get_product_passport_uri (strBytes "a.example") then
          .ok (Json.obj [(strBytes "jwks_uri", .str (strBytes "https://a.example/jwks.json")),
                         (strBytes "logo_url", .str (strBytes "https://a.example/logo.png")),
                         (strBytes "product_dataspace", .str (strBytes "ds.example"))])
        else if uri = strBytes "https://a.example/jwks.json" then
          .ok (Json.obj [(strBytes "keys",
            .arr [Json.obj [(strBytes "kid", .str (strBytes "key-1")),
                            (strBytes "alg", .str (strBytes "ES256")),
                            (strBytes "n", .str (strBytes "KEYMAT"))]])])
        else .error ()))
        (strBytes "IT1:" ++ b45encode (coseEnvelope (-257) (strBytes "key-1")
          (payloadEnc (strBytes "a.example") (strBytes "widget") (strBytes "p1"))
          (symSign (strBytes "KEYMAT") (sigStructure (phBytes (-257))
            (payloadEnc (strBytes "a.example") (strBytes "widget") (strBytes "p1"))))))
      = .error noMatchingKeyError := by
  rw [verify_code_on_token _ (strBytes "key-1") (strBytes "KEYMAT")
    (strBytes "a.example") (strBytes "widget") (strBytes "p1")
    (by decide) (by decide) (by decide) (by decide) (by decide)]
  refine verify_code_trust_nomatch _ _ _
    (Json.obj [(strBytes "jwks_uri", .str (strBytes "https://a.example/jwks.json")),
               (strBytes "logo_url", .str (strBytes "https://a.example/logo.png")),
               (strBytes "product_dataspace", .str (strBytes "ds.example"))])
    (Json.obj [(strBytes "keys",
      .arr [Json.obj [(strBytes "kid", .str (strBytes "key-1")),
                      (strBytes "alg", .str (strBytes "ES256")),
                      (strBytes "n", .str (strBytes "KEYMAT"))]])])
    (ProductPassport.mk (strBytes "https://a.example/jwks.json")
      (strBytes "https://a.example/logo.png") (strBytes "ds.example"))
    [Json.obj [(strBytes "kid", .str (strBytes "key-1")),
               (strBytes "alg", .str (strBytes "ES256")),
               (strBytes "n", .str (strBytes "KEYMAT"))]]
    rfl rfl rfl rfl rfl

/-- C1: Round trip: a payload whose issuer is the signing key's declared
issuer `conf.RSA_ISS`, signed on the valid path, verifies end to end against
an issuer key-set whose selected (kid, alg) entry is the matching public key
(`coseKeyFromJwk` yields exactly the production key), and the spec-level
`verify` returns the payload identical in value to the signed one;
`verify_code` itself (which returns `None` on success) succeeds. -/
theorem c1_sign_verify_round_trip (conf : Conf) (ikd : Bytes) (env : FetchEnv)
    (product id token : Bytes) (ppJson jwksJson : Json) (pp : ProductPassport)
    (ks : List Json) (jwk : Json)
    (hiss : StrOk conf.RSA_ISS) (hkid : StrOk conf.RSA_KID)
    (hmat : StrOk conf.RSA_PRIVATE_KEY) (hprod : StrOk product) (hid : StrOk id)
    (hmk : make_cose_code conf ikd conf.RSA_ISS product id true = .ok token)
    (h1 : env.fetch (get_product_passport_uri conf.RSA_ISS) = .ok ppJson)
    (h2 : productPassportOfJson ppJson = some pp)
    (h3 : env.fetch pp.jwks_uri = .ok jwksJson)
    (h4 : jwksKeys jwksJson = .ok ks)
    (h5 : findKey ks conf.RSA_KID (strBytes "RS256") = .ok (some jwk))
    (h6 : coseKeyFromJwk jwk = .ok (rsaPrivateKey conf)) :
    verify env token = .ok ⟨conf.RSA_ISS, product, id⟩ ∧
      verify_code env token = .ok () := by
  rw [make_cose_code_valid conf ikd product id] at hmk
  injection hmk with htok
  subst htok
  have lpl : (payloadEnc conf.RSA_ISS product id).length < 18446744073709551616 := by
    have := payloadEnc_length_le conf.RSA_ISS product id
    have := hiss.1
    have := hprod.1
    have := hid.1
    omega
  have lsig : (symSign conf.RSA_PRIVATE_KEY (sigStructure (phBytes (-257))
      (payloadEnc conf.RSA_ISS product id))).length < 18446744073709551616 := by
    rw [symSign_length]
    have := sigStructure_length_le (phBytes (-257)) (payloadEnc conf.RSA_ISS product id)
    have := phBytes_length_le (-257)
    have := payloadEnc_length_le conf.RSA_ISS product id
    have := hiss.1
    have := hprod.1
    have := hid.1
    have := hmat.1
    omega
  have htrust : verify_code_trust env
      (coseEnvelope (-257) conf.RSA_KID (payloadEnc conf.RSA_ISS product id)
        (symSign conf.RSA_PRIVATE_KEY (sigStructure (phBytes (-257))
          (payloadEnc conf.RSA_ISS product id))))
      ⟨⟨conf.RSA_ISS, product, id⟩, strBytes "RS256", conf.RSA_KID⟩ = .ok () := by
    refine verify_code_trust_verifies env _ _ ppJson jwksJson pp ks jwk
      (rsaPrivateKey conf)
      (.map [(.tstr (strBytes "iss"), .tstr conf.RSA_ISS),
             (.tstr (strBytes "product"), .tstr product),
             (.tstr (strBytes "id"), .tstr id)])
      h1 h2 h3 h4 h5 h6 ?_
    exact cwtDecode_envelope_ok conf.RSA_KID _ _ (rsaPrivateKey conf) _
      rfl rfl (Or.inr rfl) (by have := hkid.1; omega) lpl lsig
      (full_payloadEnc conf.RSA_ISS product id
        (by have := hiss.1; omega) (by have := hprod.1; omega) (by have := hid.1; omega))
  refine ⟨?_, ?_⟩
  · exact verify_on_token env conf.RSA_KID conf.RSA_PRIVATE_KEY conf.RSA_ISS
      product id hkid hmat hiss hprod hid htrust
  · rw [verify_code_on_token env conf.RSA_KID conf.RSA_PRIVATE_KEY conf.RSA_ISS
      product id hkid hmat hiss hprod hid]
    exact htrust

/-- C10: the test-only invalid path (`valid = false`) performs no issuer check
at all — the issuer here is an arbitrary string, unrelated to `conf.RSA_ISS` —
and signs with the distinct invalid key material under the SAME kid
(`conf.RSA_KID`), so the produced token extracts with a kid equal to the
issuer's published key id while its signature fails to verify against the
issuer's published (valid) key: verification ends in the SignatureInvalid
`TagsError` (`invalid_signature_jwks_failed`), not in NoMatchingKey. -/
theorem c10_invalid_path (conf : Conf) (ikd : Bytes) (env : FetchEnv)
    (iss product id : Bytes) (ppJson jwksJson : Json) (pp : ProductPassport)
    (ks : List Json) (jwk : Json)
    (hkid : StrOk conf.RSA_KID) (hmat : StrOk conf.RSA_PRIVATE_KEY)
    (hikd : StrOk ikd) (hiss : StrOk iss) (hprod : StrOk product) (hid : StrOk id)
    (hne : ikd ≠ conf.RSA_PRIVATE_KEY)
    (h1 : env.fetch (get_product_passport_uri iss) = .ok ppJson)
    (h2 : productPassportOfJson ppJson = some pp)
    (h3 : env.fetch pp.jwks_uri = .ok jwksJson)
    (h4 : jwksKeys jwksJson = .ok ks)
    (h5 : findKey ks conf.RSA_KID (strBytes "RS256") = .ok (some jwk))
    (h6 : coseKeyFromJwk jwk = .ok (rsaPrivateKey conf)) :
    make_cose_code conf ikd iss product id false
      = .ok (strBytes "IT1:" ++ b45encode (coseEnvelope (-257) conf.RSA_KID
          (payloadEnc iss product id)
          (symSign ikd (sigStructure (phBytes (-257)) (payloadEnc iss product id))))) ∧
    cose_parse_insecure (coseEnvelope (-257) conf.RSA_KID (payloadEnc iss product id)
        (symSign ikd (sigStructure (phBytes (-257)) (payloadEnc iss product id))))
      = .ok ⟨⟨iss, product, id⟩, strBytes "RS256", conf.RSA_KID⟩ ∧
    verify_code env (strBytes "IT1:" ++ b45encode (coseEnvelope (-257) conf.RSA_KID
        (payloadEnc iss product id)
        (symSign ikd (sigStructure (phBytes (-257)) (payloadEnc iss product id)))))
      = .error signatureInvalidError := by
  have lpl : (payloadEnc iss product id).length < 18446744073709551616 := by
    have := payloadEnc_length_le iss product id
    have := hiss.1
    have := hprod.1
    have := hid.1
    omega
  have lsig : (symSign ikd (sigStructure (phBytes (-257))
      (payloadEnc iss product id))).length < 18446744073709551616 := by
    rw [symSign_length]
    have := sigStructure_length_le (phBytes (-257)) (payloadEnc iss product id)
    have := phBytes_length_le (-257)
    have := payloadEnc_length_le iss product id
    have := hiss.1
    have := hprod.1
    have := hid.1
    have := hikd.1
    omega
  refine ⟨make_cose_code_invalid conf ikd iss product id, ?_, ?_⟩
  · exact parse_envelope conf.RSA_KID iss product id _ hkid.1 hiss.1 hprod.1 hid.1 lsig
  · rw [verify_code_on_token env conf.RSA_KID ikd iss product id hkid hikd hiss hprod hid]
    refine verify_code_trust_sigfail env _ _ ppJson jwksJson pp ks jwk
      (rsaPrivateKey conf) "Failed to verify." h1 h2 h3 h4 h5 h6 ?_
    refine cwtDecode_envelope_badsig conf.RSA_KID _ _ (rsaPrivateKey conf)
      rfl rfl ?_ (by have := hkid.1; omega) lpl lsig
    intro hcon
    rcases hcon with hcon | hcon
    · exact absurd hcon (by simp [rsaPrivateKey])
    · exact hne (symSign_inj_material ikd conf.RSA_PRIVATE_KEY _ hcon)

/-- Witness for C7 at a concrete key-set whose only key declares ES256. -/
theorem c7_alg_confusion_nomatch_witness :
    verify_code (FetchEnv.mk (fun uri =>
        if uri = get_product_passport_uri (strBytes "a.example") then
          .ok (Json.obj [(strBytes "jwks_uri", .str (strBytes "https://a.example/jwks.json")),
                         (strBytes "logo_url", .str (strBytes "https://a.example/logo.png")),
                         (strBytes "product_dataspace", .str (strBytes "ds.example"))])
        else if uri = strBytes "https://a.example/jwks.json" then
          .ok (Json.obj [(strBytes "keys",
            .arr [Json.obj [(strBytes "kid", .str (strBytes "key-1")),
                            (strBytes "alg", .str (strBytes "ES256")),
                            (strBytes "n", .str (strBytes "OTHERMAT"))]])])
        else .error ()))
        (strBytes "IT1:" ++ b45encode (coseEnvelope (-257) (strBytes "key-1")
          (payloadEnc (strBytes "a.example") (strBytes "widget") (strBytes "p2"))
          (symSign (strBytes "KEYMAT") (sigStructure (phBytes (-257))
            (payloadEnc (strBytes "a.example") (strBytes "widget") (strBytes "p2"))))))
      = .error noMatchingKeyError ∧
    noMatchingKeyError ≠ signatureInvalidError :=
  c7_alg_confusion_nomatch _ (strBytes "key-1") (strBytes "KEYMAT")
    (strBytes "a.example") (strBytes "widget") (strBytes "p2")
    (Json.obj [(strBytes "jwks_uri", .str (strBytes "https://a.example/jwks.json")),
               (strBytes "logo_url", .str (strBytes "https://a.example/logo.png")),
               (strBytes "product_dataspace", .str (strBytes "ds.example"))])
    (Json.obj [(strBytes "keys",
      .arr [Json.obj [(strBytes "kid", .str (strBytes "key-1")),
                      (strBytes "alg", .str (strBytes "ES256")),
                      (strBytes "n", .str (strBytes "OTHERMAT"))]])])
    (ProductPassport.mk (strBytes "https://a.example/jwks.json")
      (strBytes "https://a.example/logo.png") (strBytes "ds.example"))
    [Json.obj [(strBytes "kid", .str (strBytes "key-1")),
               (strBytes "alg", .str (strBytes "ES256")),
               (strBytes "n", .str (strBytes "OTHERMAT"))]]
    (by decide) (by decide) (by decide) (by decide) (by decide)
    rfl
    (by intro j hj
        simp only [List.mem_singleton] at hj
        subst hj
        decide)
    rfl rfl rfl rfl

/-- Witness for C1 at a concrete configuration and issuer environment. -/
theorem c1_sign_verify_round_trip_witness :
    verify (FetchEnv.mk (fun uri =>
        if uri = get_product_passport_uri (strBytes "a.example") then
          .ok (Json.obj [(strBytes "jwks_uri", .str (strBytes "https://a.example/jwks.json")),
                         (strBytes "logo_url", .str (strBytes "https://a.example/logo.png")),
                         (strBytes "product_dataspace", .str (strBytes "ds.example"))])
        else if uri = strBytes "https://a.example/jwks.json" then
          .ok (Json.obj [(strBytes "keys",
            .arr [Json.obj [(strBytes "kid", .str (strBytes "key-1")),
                            (strBytes "alg", .str (strBytes "RS256")),
                            (strBytes "n", .str (strBytes "KEYMAT"))]])])
        else .error ()))
        (strBytes "IT1:" ++ b45encode (coseEnvelope (-257) (strBytes "key-1")
          (payloadEnc (strBytes "a.example") (strBytes "widget") (strBytes "p1"))
          (symSign (strBytes "KEYMAT") (sigStructure (phBytes (-257))
            (payloadEnc (strBytes "a.example") (strBytes "widget") (strBytes "p1"))))))
      = .ok ⟨strBytes "a.example", strBytes "widget", strBytes "p1"⟩ ∧
    verify_code (FetchEnv.mk (fun uri =>
        if uri = get_product_passport_uri (strBytes "a.example") then
          .ok (Json.obj [(strBytes "jwks_uri", .str (strBytes "https://a.example/jwks.json")),
                         (strBytes "logo_url", .str (strBytes "https://a.example/logo.png")),
                         (strBytes "product_dataspace", .str (strBytes "ds.example"))])
        else if uri = strBytes "https://a.example/jwks.json" then
          .ok (Json.obj [(strBytes "keys",
            .arr [Json.obj [(strBytes "kid", .str (strBytes "key-1")),
                            (strBytes "alg", .str (strBytes "RS256")),
                            (strBytes "n", .str (strBytes "KEYMAT"))]])])
        else .error ()))
        (strBytes "IT1:" ++ b45encode (coseEnvelope (-257) (strBytes "key-1")
          (payloadEnc (strBytes "a.example") (strBytes "widget") (strBytes "p1"))
          (symSign (strBytes "KEYMAT") (sigStructure (phBytes (-257))
            (payloadEnc (strBytes "a.example") (strBytes "widget") (strBytes "p1"))))))
      = .ok () :=
  c1_sign_verify_round_trip
    (Conf.mk (strBytes "a.example") (strBytes "key-1") (strBytes "KEYMAT"))
    (strBytes "IK") _ (strBytes "widget") (strBytes "p1") _
    (Json.obj [(strBytes "jwks_uri", .str (strBytes "https://a.example/jwks.json")),
               (strBytes "logo_url", .str (strBytes "https://a.example/logo.png")),
               (strBytes "product_dataspace", .str (strBytes "ds.example"))])
    (Json.obj [(strBytes "keys",
      .arr [Json.obj [(strBytes "kid", .str (strBytes "key-1")),
                      (strBytes "alg", .str (strBytes "RS256")),
                      (strBytes "n", .str (strBytes "KEYMAT"))]])])
    (ProductPassport.mk (strBytes "https://a.example/jwks.json")
      (strBytes "https://a.example/logo.png") (strBytes "ds.example"))
    [Json.obj [(strBytes "kid", .str (strBytes "key-1")),
               (strBytes "alg", .str (strBytes "RS256")),
               (strBytes "n", .str (strBytes "KEYMAT"))]]
    (Json.obj [(strBytes "kid", .str (strBytes "key-1")),
               (strBytes "alg", .str (strBytes "RS256")),
               (strBytes "n", .str (strBytes "KEYMAT"))])
    (by decide) (by decide) (by decide) (by decide) (by decide)
    (make_cose_code_valid
      (Conf.mk (strBytes "a.example") (strBytes "key-1") (strBytes "KEYMAT"))
      (strBytes "IK") (strBytes "widget") (strBytes "p1"))
    rfl rfl rfl rfl rfl rfl

/-- Witness for C10: the issuer of the signed payload (`a.example`) differs
from the configured `RSA_ISS` (`b.example`), yet the invalid path still signs. -/
theorem c10_invalid_path_witness :
    make_cose_code (Conf.mk (strBytes "b.example") (strBytes "key-1") (strBytes "KEYMAT"))
        (strBytes "INVKEY") (strBytes "a.example") (strBytes "widget") (strBytes "p1") false
      = .ok (strBytes "IT1:" ++ b45encode (coseEnvelope (-257) (strBytes "key-1")
          (payloadEnc (strBytes "a.example") (strBytes "widget") (strBytes "p1"))
          (symSign (strBytes "INVKEY") (sigStructure (phBytes (-257))
            (payloadEnc (strBytes "a.example") (strBytes "widget") (strBytes "p1")))))) ∧
    cose_parse_insecure (coseEnvelope (-257) (strBytes "key-1")
        (payloadEnc (strBytes "a.example") (strBytes "widget") (strBytes "p1"))
        (symSign (strBytes "INVKEY") (sigStructure (phBytes (-257))
          (payloadEnc (strBytes "a.example") (strBytes "widget") (strBytes "p1")))))
      = .ok ⟨⟨strBytes "a.example", strBytes "widget", strBytes "p1"⟩,
             strBytes "RS256", strBytes "key-1"⟩ ∧
    verify_code (FetchEnv.mk (fun uri =>
        if uri = get_product_passport_uri (strBytes "a.example") then
          .ok (Json.obj [(strBytes "jwks_uri", .str (strBytes "https://a.example/jwks.json")),
                         (strBytes "logo_url", .str (strBytes "https://a.example/logo.png")),
                         (strBytes "product_dataspace", .str (strBytes "ds.example"))])
        else if uri = strBytes "https://a.example/jwks.json" then
          .ok (Json.obj [(strBytes "keys",
            .arr [Json.obj [(strBytes "kid", .str (strBytes "key-1")),
                            (strBytes "alg", .str (strBytes "RS256")),
                            (strBytes "n", .str (strBytes "KEYMAT"))]])])
        else .error ()))
        (strBytes "IT1:" ++ b45encode (coseEnvelope (-257) (strBytes "key-1")
          (payloadEnc (strBytes "a.example") (strBytes "widget") (strBytes "p1"))
          (symSign (strBytes "INVKEY") (sigStructure (phBytes (-257))
            (payloadEnc (strBytes "a.example") (strBytes "widget") (strBytes "p1"))))))
      = .error signatureInvalidError :=
  c10_invalid_path
    (Conf.mk (strBytes "b.example") (strBytes "key-1") (strBytes "KEYMAT"))
    (strBytes "INVKEY") _
    (strBytes "a.example") (strBytes "widget") (strBytes "p1")
    (Json.obj [(strBytes "jwks_uri", .str (strBytes "https://a.example/jwks.json")),
               (strBytes "logo_url", .str (strBytes "https://a.example/logo.png")),
               (strBytes "product_dataspace", .str (strBytes "ds.example"))])
    (Json.obj [(strBytes "keys",
      .arr [Json.obj [(strBytes "kid", .str (strBytes "key-1")),
                      (strBytes "alg", .str (strBytes "RS256")),
                      (strBytes "n", .str (strBytes "KEYMAT"))]])])
    (ProductPassport.mk (strBytes "https://a.example/jwks.json")
      (strBytes "https://a.example/logo.png") (strBytes "ds.example"))
    [Json.obj [(strBytes "kid", .str (strBytes "key-1")),
               (strBytes "alg", .str (strBytes "RS256")),
               (strBytes "n", .str (strBytes "KEYMAT"))]]
    (Json.obj [(strBytes "kid", .str (strBytes "key-1")),
               (strBytes "alg", .str (strBytes "RS256")),
               (strBytes "n", .str (strBytes "KEYMAT"))])
    (by decide) (by decide) (by decide) (by decide) (by decide) (by decide)
    (by decide)
    rfl rfl rfl rfl rfl rfl
